import Mathlib

/-!
# YSF2DMR gateway: embedding of `APRSReader.cpp` and `YSF2DMR.cpp`

The C++ sources are embedded shallowly.

* An `unsigned char` buffer is a list of naturals; a store keeps the low eight bits.
* An `int` is an integer; `/` and `%` are the truncating `Int.tdiv` and `Int.tmod`, `|` is
  `Int.lor`, and a result that can leave the 32-bit range is wrapped explicitly.
* `unsigned int` arithmetic is taken modulo `2 ^ 32`, an `unsigned char` counter modulo `256`.
* A `std::string` is a list of characters.
* The loop of `CYSF2DMR::run` is a function from the session state and the inputs of one
  iteration (the clock reading, what the networks and the conversion pipeline return) to
  the new state and the list of calls made on the collaborators, in program order.
  A C++ exception that nothing catches ends the program: the result is `none`.

The first part of the file holds the definitions, the second part the theorems.
-/

namespace APRSReader

/-- Value kept by a store of an `int` into an `unsigned char`. -/
def toByte (x : Int) : Nat := (x % 256).toNat

/-- Conversion of a value to `int` (32-bit two's complement). -/
def toInt32 (x : Int) : Int := (x + 2147483648) % 4294967296 - 2147483648

/-- Conversion of a value to `unsigned int`. -/
def toUInt32 (x : Int) : Int := x % 4294967296

/-- Read of `*(buffer + i)`. -/
def peek (buffer : List Nat) (i : Nat) : Nat := buffer.getD i 0

/-- The loop `for (i = 0; i < 19; i++) crc += *(buffer + i);` of `formatGPS`,
started at index `i` with `n` iterations left. -/
def crcLoop (buffer : List Nat) : Nat → Nat → Nat → Nat
  | _, 0, crc => crc
  | i, n + 1, crc => crcLoop buffer (i + 1) n (crc + peek buffer i)

/-- `CAPRSReader::formatGPS`: writes bytes 5..13 and the checksum byte 19 of `buffer`.
The only `int` operation that can leave the 32-bit range is the negation of the
sign handling, which is wrapped; the sums with an unsigned constant are unsigned. -/
def formatGPS (buffer : List Nat) (latitude longitude : Int) : List Nat :=
  let lon_sign : Int := if longitude < 0 then 0x30 else 0x50
  let longitude : Int := if longitude < 0 then toInt32 (longitude * -1) else longitude
  let lat_sign : Int := if latitude < 0 then 0x30 else 0x50
  let latitude : Int := if latitude < 0 then toInt32 (latitude * -1) else latitude
  -- Latitude
  let lat_dec := Int.tdiv latitude 10000
  let lat_uni := Int.tmod (Int.tdiv latitude 1000) 10
  let buffer := buffer.set 5 (toByte (Int.lor lat_dec 0x50))
  let buffer := buffer.set 6 (toByte (Int.lor lat_uni lon_sign))
  let lat_min := (latitude - (lat_dec * 10 + lat_uni) * 1000) * 6
  let lat_min_dec := Int.tdiv lat_min 1000
  let lat_min_uni := Int.tmod (Int.tdiv lat_min 100) 10
  let buffer := buffer.set 7 (toByte (Int.lor lat_min_dec 0x50))
  let buffer := buffer.set 8 (toByte (Int.lor lat_min_uni lat_sign))
  let lat_frac := lat_min - (lat_min_dec * 10 + lat_min_uni) * 100
  let lat_frac_dec := Int.tdiv lat_frac 10
  let lat_frac_uni := Int.tmod lat_frac 10
  let lon_grad := Int.tdiv longitude 1000
  let a : Int :=
    if 0 ≤ lon_grad ∧ lon_grad ≤ 9 then 0x50
    else if 10 ≤ lon_grad ∧ lon_grad ≤ 99 then 0x30
    else if 100 ≤ lon_grad ∧ lon_grad ≤ 109 then 0x50
    else 0x50
  let b : Int :=
    if 0 ≤ lon_grad ∧ lon_grad ≤ 9 then toInt32 (toUInt32 (lon_grad + 0x76))
    else if 10 ≤ lon_grad ∧ lon_grad ≤ 99 then toInt32 (toUInt32 (toUInt32 (lon_grad - 10) + 0x26))
    else if 100 ≤ lon_grad ∧ lon_grad ≤ 109 then
      toInt32 (toUInt32 (toUInt32 (lon_grad - 100) + 0x6C))
    else toInt32 (toUInt32 (toUInt32 (lon_grad - 110) + 0x26))
  let buffer := buffer.set 9 (toByte (Int.lor lat_frac_dec a))
  let buffer := buffer.set 10 (toByte (Int.lor lat_frac_uni 0x50))
  let buffer := buffer.set 11 (toByte b)
  let long_min := Int.tdiv ((longitude - lon_grad * 1000) * 6) 100
  let b : Int :=
    if 0 ≤ long_min ∧ long_min ≤ 9 then toInt32 (toUInt32 (long_min + 0x58))
    else toInt32 (toUInt32 (toUInt32 (long_min - 10) + 0x26))
  let buffer := buffer.set 12 (toByte b)
  let long_min_frac := (longitude - lon_grad * 1000) * 6 - long_min * 100
  let buffer := buffer.set 13 (toByte (toUInt32 (long_min_frac + 0x1C)))
  -- crc calculation
  let crc := crcLoop buffer 0 19 0
  let crc := crc &&& 0x00FF
  buffer.set 19 crc

/-- Low four bits of a byte. -/
def lowNibble (b : Nat) : Nat := b % 16

/-- High four bits of a byte. -/
def highNibble (b : Nat) : Nat := b / 16

/-- Manual decode of the latitude fields of a beacon buffer, written from the
specification (tens and units of degrees, of minutes and of hundredths of a minute
in the low nibbles of bytes 5..10, the sign in the high nibble of byte 8): the
result is in thousandths of a degree. -/
def decodeLatitude (buffer : List Nat) : Int :=
  let deg := 10 * lowNibble (peek buffer 5) + lowNibble (peek buffer 6)
  let min := 10 * lowNibble (peek buffer 7) + lowNibble (peek buffer 8)
  let frac := 10 * lowNibble (peek buffer 9) + lowNibble (peek buffer 10)
  let mag : Nat := deg * 1000 + (min * 100 + frac) / 6
  if highNibble (peek buffer 8) = 3 then -(mag : Int) else (mag : Int)

/-- Manual decode of the longitude fields of a beacon buffer, written from the
specification (degrees in byte 11 together with the high nibble of byte 9, minutes
in byte 12, hundredths of a minute in byte 13, the sign in the high nibble of
byte 6): the result is in thousandths of a degree. -/
def decodeLongitude (buffer : List Nat) : Int :=
  let b := peek buffer 11
  let deg : Nat :=
    if highNibble (peek buffer 9) = 3 then b - 0x26 + 10
    else if 0x76 ≤ b then b - 0x76
    else if 0x6C ≤ b then b - 0x6C + 100
    else b - 0x26 + 110
  let m := peek buffer 12
  let min : Nat := if 0x58 ≤ m then m - 0x58 else m - 0x26 + 10
  let frac : Nat := peek buffer 13 - 0x1C
  let mag : Nat := deg * 1000 + (min * 100 + frac) / 6
  if highNibble (peek buffer 6) = 3 then -(mag : Int) else (mag : Int)

/-- Bytes 5..13 of a beacon buffer. -/
def gpsFields (buffer : List Nat) : List Nat := (buffer.drop 5).take 9

/-- Value of the local `latitude` (or `longitude`) of `formatGPS` after the sign
handling. -/
def magnitude (x : Int) : Int := if x < 0 then toInt32 (x * -1) else x

/-- Value of the local `lat_sign` (or `lon_sign`) of `formatGPS`. -/
def signCode (x : Int) : Int := if x < 0 then 0x30 else 0x50

/-- Value of the local `lat_min` of `formatGPS` for the magnitude `L`. -/
def latMin (L : Int) : Int :=
  (L - (Int.tdiv L 10000 * 10 + Int.tmod (Int.tdiv L 1000) 10) * 1000) * 6

/-- Value of the local `lat_frac` of `formatGPS` for the magnitude `L`. -/
def latFrac (L : Int) : Int :=
  latMin L - (Int.tdiv (latMin L) 1000 * 10 + Int.tmod (Int.tdiv (latMin L) 100) 10) * 100

/-- Value of the local `a` of `formatGPS` for the degrees `lon_grad`. -/
def lonA (lon_grad : Int) : Int :=
  if 0 ≤ lon_grad ∧ lon_grad ≤ 9 then 0x50
  else if 10 ≤ lon_grad ∧ lon_grad ≤ 99 then 0x30
  else if 100 ≤ lon_grad ∧ lon_grad ≤ 109 then 0x50
  else 0x50

/-- Value of the local `b` of `formatGPS` stored in byte 11 for the degrees `lon_grad`. -/
def lonB (lon_grad : Int) : Int :=
  if 0 ≤ lon_grad ∧ lon_grad ≤ 9 then toInt32 (toUInt32 (lon_grad + 0x76))
  else if 10 ≤ lon_grad ∧ lon_grad ≤ 99 then toInt32 (toUInt32 (toUInt32 (lon_grad - 10) + 0x26))
  else if 100 ≤ lon_grad ∧ lon_grad ≤ 109 then
    toInt32 (toUInt32 (toUInt32 (lon_grad - 100) + 0x6C))
  else toInt32 (toUInt32 (toUInt32 (lon_grad - 110) + 0x26))

/-- Value of the local `long_min` of `formatGPS` for the magnitude `G`. -/
def longMin (G : Int) : Int := Int.tdiv ((G - Int.tdiv G 1000 * 1000) * 6) 100

/-- Value of the local `b` of `formatGPS` stored in byte 12 for the minutes `long_min`. -/
def lonMinB (long_min : Int) : Int :=
  if 0 ≤ long_min ∧ long_min ≤ 9 then toInt32 (toUInt32 (long_min + 0x58))
  else toInt32 (toUInt32 (toUInt32 (long_min - 10) + 0x26))

/-- Value of the local `long_min_frac` of `formatGPS` for the magnitude `G`. -/
def longMinFrac (G : Int) : Int := (G - Int.tdiv G 1000 * 1000) * 6 - longMin G * 100

/-- Modelled from the spec: the declaration of the class `CAPRSReader` is in a header
that is not among the sources. The members `findCall` works with are the
single-outstanding-request flag `m_new_callsign`, the callsign `m_cs` of the request,
the refresh interval `m_refres_time` and the shared lookup table, held as three maps
from callsign to latitude, longitude and timestamp. A map is the list of its
entries. -/
structure CAPRSReader where
  m_cs : List Char
  m_new_callsign : Bool
  m_refres_time : Int
  m_lat_table : List (List Char × Int)
  m_lon_table : List (List Char × Int)
  m_time_table : List (List Char × Nat)
  deriving DecidableEq, Repr

/-- What a call of `findCall` leaves behind: the reader, the values of the caller's
`*latitude` and `*longitude`, and the value returned; `result` is `none` when
`m_time_table.at(cs)` throws, which `findCall` does not catch. -/
structure FindCall where
  reader : CAPRSReader
  latitude : Int
  longitude : Int
  result : Option Bool
  deriving DecidableEq, Repr

/-- `CAPRSReader::findCall`. The arguments `latitude` and `longitude` are the values of
the caller's variables on entry and `tv_sec` is the time read by `gettimeofday`. A
`m_lat_table.at(cs)` or `m_lon_table.at(cs)` that throws is caught and sets
`not_found`; `epoch` and `tempo` are `unsigned int`, and so is their sum with the
refresh interval. -/
def findCall (r : CAPRSReader) (cs : List Char) (latitude longitude : Int) (tv_sec : Int) :
    FindCall :=
  if r.m_new_callsign then
    { reader := r, latitude := latitude, longitude := longitude, result := some false }
  else
    let lat := r.m_lat_table.lookup cs
    let latitude := lat.getD latitude
    let lon := r.m_lon_table.lookup cs
    let longitude := lon.getD longitude
    let not_found : Bool := lat.isNone || lon.isNone
    if not_found then
      let r1 : CAPRSReader :=
        if !r.m_new_callsign then { r with m_new_callsign := true, m_cs := cs } else r
      { reader := r1, latitude := latitude, longitude := longitude, result := some false }
    else
      match r.m_time_table.lookup cs with
      | none => { reader := r, latitude := latitude, longitude := longitude, result := none }
      | some t =>
        let epoch := toUInt32 tv_sec
        let tempo := toUInt32 t
        let r1 : CAPRSReader :=
          if epoch > toUInt32 (tempo + r.m_refres_time) then
            (if !r.m_new_callsign then { r with m_new_callsign := true, m_cs := cs } else r)
          else r
        { reader := r1, latitude := latitude, longitude := longitude,
          result := some (if latitude = 0 ∨ longitude = 0 then false else true) }

/-- A reader that holds a position for `EA7EE` and has a lookup of `EA5XYZ` pending. -/
def pendingReader : CAPRSReader :=
  { m_cs := "EA5XYZ".toList, m_new_callsign := true, m_refres_time := 600,
    m_lat_table := [("EA7EE".toList, 37389)], m_lon_table := [("EA7EE".toList, -5984)],
    m_time_table := [("EA7EE".toList, 1540000000)] }

end APRSReader

namespace YSF2DMR

/-- Modelled from the spec: the enumeration `TG_STATUS` is declared in a header that is
not among the sources. Its values are the four states of the talk-group state machine,
`IDLE`, `AWAITING_DISCONNECT_CONFIRM`, `SENDING_REPLY` and `SENDING_PTT_ANNOUNCE`, under
the names `run` uses. -/
inductive TG_STATUS where
  | NONE
  | WAITING_UNLINK
  | SEND_REPLY
  | SEND_PTT
  deriving DecidableEq, Repr

/-- Modelled from the spec: the enumeration `WX_STATUS` is declared in a header that is
not among the sources. Its values are the results of the two in-band signalling
decoders, connect, disconnect and none, and `WXS_DX`, which `run` ignores. -/
inductive WX_STATUS where
  | WXS_NONE
  | WXS_CONNECT
  | WXS_DX
  | WXS_DISCONNECT
  deriving DecidableEq, Repr

/-- Modelled from the spec: the enumeration `FLCO` is declared in a header that is not
among the sources. Its values are the call types of a link-control record, group and
private (user to user). -/
inductive FLCO where
  | FLCO_GROUP
  | FLCO_USER_USER
  deriving DecidableEq, Repr

/-- Modelled from the spec: the constants `DT_...` are defined in a header that is not
among the sources. The data types the driver tells apart are voice header, terminator
with link control, voice sync and voice; `DT_OTHER` stands for every other value. -/
inductive DataType where
  | DT_VOICE_LC_HEADER
  | DT_TERMINATOR_WITH_LC
  | DT_VOICE_SYNC
  | DT_VOICE
  | DT_OTHER
  deriving DecidableEq, Repr

/-- Modelled from the spec: the constants `TAG_...` are defined in a header that is not
among the sources. The conversion pipeline returns the tag of the next unit, header,
data or end of transmission; `TAG_NODATA` stands for every other value ("nothing
ready"). -/
inductive TAG where
  | TAG_HEADER
  | TAG_DATA
  | TAG_EOT
  | TAG_NODATA
  deriving DecidableEq, Repr

/-- Modelled from the spec: the constants `YSF_FI_...` are defined in a header that is
not among the sources. The frame indicator of a FICH is header, communications or
terminator; `YSF_FI_TEST` stands for the remaining value. -/
inductive FI where
  | YSF_FI_HEADER
  | YSF_FI_COMMUNICATIONS
  | YSF_FI_TERMINATOR
  | YSF_FI_TEST
  deriving DecidableEq, Repr

/-- Modelled from the spec: the class `CDMRData` is not among the sources. The record
given to `m_dmrNetwork->write` carries slot number, source and destination IDs,
call-type flag, position `n`, sequence number and data type. The 33 payload bytes are
kept as what the driver put in them: `emb` is the fragment index passed to
`m_EmbeddedLC.getData` (if it was called for this frame) and `silence` tells that the
voice bytes are `DMR_SILENCE_DATA`. -/
structure CDMRData where
  slotNo : Nat
  srcId : Nat
  dstId : Nat
  flco : FLCO
  n : Nat
  seqNo : Nat
  dataType : DataType
  emb : Option Nat
  silence : Bool
  deriving DecidableEq, Repr

/-- What the driver puts in the data field of a YSF frame it writes. -/
inductive YSFPayload where
  | header
  | stars
  | netSrc
  | netDst
  | gps1
  | gps2
  | blanks
  deriving DecidableEq, Repr

/-- The frame given to `m_ysfNetwork->write`: frame indicator and frame number of the
FICH, byte 34 (net frame counter) and the kind of payload. -/
structure YSFOut where
  fi : FI
  fn : Nat
  counter : Nat
  payload : YSFPayload
  deriving DecidableEq, Repr

/-- One call the driver makes on a collaborator, in program order. -/
inductive Out where
  | sendConnectReply (dstid : Nat)
  | dmrWrite (d : CDMRData)
  | ysfWrite (f : YSFOut)
  | putYSFHeader
  | putYSFEOT
  | putYSF
  | putDMRHeader
  | putDMREOT
  | putDMR
  | dmrReset
  | watchdogStart
  | watchdogStop
  | watchdogClock (ms : Nat)
  deriving DecidableEq, Repr

/-- One frame returned by `m_ysfNetwork->read`, as the collaborators see it:
`valid` is the result of `fich.decode`, `fi` the value of `fich.getFI()`, `isVDMode2`
tells whether `fich.getDT()` is `YSF_DT_VD_MODE2`, `wx` is the result of
`m_wiresX->process` with `wxReflector` the value of `m_wiresX->getReflector()`, `dtmf`
the result of `m_dtmf->decodeVDMode2` with `dtmfReflector` the value of `atoi` on its
reflector, `source` the callsign field at `buffer + 14`, `isYSFD` tells whether the
buffer starts with the tag `YSFD`, `header` is the source callsign found by
`processHeaderData` (if it succeeds). -/
structure YSFIn where
  valid : Bool
  fi : FI
  isVDMode2 : Bool
  wx : WX_STATUS
  wxReflector : Nat
  dtmf : WX_STATUS
  dtmfReflector : Nat
  source : List Char
  isYSFD : Bool
  header : Option (List Char)
  deriving DecidableEq, Repr

/-- One record returned by `m_dmrNetwork->read`; `expired` is what
`networkWatchdog.hasExpired()` answers if it is asked while this record is handled. -/
structure DMRIn where
  srcId : Nat
  dstId : Nat
  flco : FLCO
  dataType : DataType
  missing : Bool
  expired : Bool
  deriving DecidableEq, Repr

/-- Session state of `CYSF2DMR::run`: the locals of `run` that live across iterations
and the members they work with. `TGChange` is the clock reading at the last
`TGChange.start()`. -/
structure Gateway where
  TG_connect_state : TG_STATUS
  unlinkReceived : Bool
  sendDisconnect : Bool
  TGChange : Nat
  dmrflco : FLCO
  m_dstid : Nat
  m_next_dstid : Nat
  m_srcid : Nat
  m_defsrcid : Nat
  m_ysfSrc : List Char
  dmr_cnt : Nat
  ysf_cnt : Nat
  m_dmrFrames : Nat
  m_ysfFrames : Nat
  m_dmrLastDT : DataType
  deriving DecidableEq, Repr

/-- Inputs of one iteration of the loop of `run`: the clock reading, the value of
`stopWatch.elapsed()`, the frames read from the YSF network, the tag returned by
`m_conv.getDMR` (`none` when `dmrWatch` has not elapsed), the records read from the DMR
network, the tag returned by `m_conv.getYSF` (`none` when `ysfWatch` has not elapsed). -/
structure Inputs where
  now : Nat
  ms : Nat
  ysfIn : List YSFIn
  dmrTick : Option TAG
  dmrIn : List DMRIn
  ysfTick : Option TAG
  deriving DecidableEq, Repr

/-- Conversion of an `int` to `std::string::size_type`, taken as 64 bits wide; with
32 bits the conversion of `-1` is likewise larger than the length of any string. -/
def toSize (x : Int) : Nat := (x % 18446744073709551616).toNat

/-- Index of the first element of `cs` from position `i` on that satisfies `p`,
as an `int`; `-1` (`npos`) when there is none. -/
def findFirst (p : Char → Bool) : List Char → Nat → Int
  | [], _ => -1
  | c :: cs, i => if p c then (i : Int) else findFirst p cs (i + 1)

/-- Index of the last element of `cs` from position `i` on that satisfies `p`,
as an `int`; `-1` (`npos`) when there is none. -/
def findLast (p : Char → Bool) : List Char → Nat → Int
  | [], _ => -1
  | c :: cs, i =>
    let r := findLast p cs (i + 1)
    if r = -1 then (if p c then (i : Int) else -1) else r

/-- `cs.find_first_not_of(c)` stored in an `int`. -/
def find_first_not_of (cs : List Char) (c : Char) : Int := findFirst (fun x => x != c) cs 0

/-- `cs.find_last_of(c)` stored in an `int`. -/
def find_last_of (cs : List Char) (c : Char) : Int := findLast (fun x => x == c) cs 0

/-- `cs.find_last_not_of(c)` stored in an `int`. -/
def find_last_not_of (cs : List Char) (c : Char) : Int := findLast (fun x => x != c) cs 0

/-- `cs.substr(pos, len)` called with `int` arguments: `none` is the
`std::out_of_range` thrown when the converted position is past the end. -/
def substr (cs : List Char) (pos len : Int) : Option (List Char) :=
  if toSize pos > cs.length then none else some ((cs.drop (toSize pos)).take (toSize len))

/-- `CYSF2DMR::findYSFID`; `findID` is `m_lookup->findID`. The result is `none` when
`substr` throws: nothing in the program catches the exception. -/
def findYSFID (findID : List Char → Nat) (m_defsrcid : Nat) (cs : List Char) : Option Nat :=
  let first := find_first_not_of cs ' '
  let mid1 := find_last_of cs '-'
  let mid2 := find_last_of cs '/'
  let last := find_last_not_of cs ' '
  let cstrim : Option (List Char) :=
    if mid1 = -1 ∧ mid2 = -1 then substr cs first (last - first + 1)
    else if mid1 > first then substr cs first (mid1 - first)
    else if mid2 > first then substr cs first (mid2 - first)
    else some "N0CALL".toList
  match cstrim with
  | none => none
  | some cstrim =>
    let id := findID cstrim
    if id = 0 then some m_defsrcid else some id

/-- The string built by `m_ysfSrc = reinterpret_cast<char const*>(buf)` after
`memcpy(buf, buffer + 14U, 6U); buf[6U] = 0U`: the first six bytes of the callsign
field, cut at the first zero byte. -/
def ysfSrcOf (source : List Char) : List Char :=
  (source.take 6).takeWhile (fun c => c != Char.ofNat 0)

/-- `CYSF2DMR::SendDummyDMR`: the four records written to the DMR network, three
voice headers with sequence numbers 0, 1, 2 and one terminator with sequence number 3. -/
def SendDummyDMR (srcid dstid : Nat) (dmr_flco : FLCO) : List Out :=
  let dmrdata : CDMRData :=
    { slotNo := 2, srcId := srcid, dstId := dstid, flco := dmr_flco, n := 0, seqNo := 0,
      dataType := DataType.DT_VOICE_LC_HEADER, emb := none, silence := false }
  [Out.dmrWrite { dmrdata with seqNo := 0 },
   Out.dmrWrite { dmrdata with seqNo := 1 },
   Out.dmrWrite { dmrdata with seqNo := 2 },
   Out.dmrWrite { dmrdata with seqNo := 3, dataType := DataType.DT_TERMINATOR_WITH_LC }]

/-- Modelled from the spec: the class `CStopWatch` is not among the sources. It is a
monotonic elapsed-time counter: `elapsed()` is the time in milliseconds from the clock
reading `start` of the last `start()` to the clock reading `now`, sampled once per
iteration. -/
def elapsed (now start : Nat) : Nat := now - start

/-- The `switch (TG_connect_state)` at the head of the loop body of `run`;
`TGChange.start()` stores the clock reading `now`. -/
def tgSwitch (findID : List Char → Nat) (now : Nat) (s : Gateway) :
    Option (Gateway × List Out) :=
  match s.TG_connect_state with
  | TG_STATUS.WAITING_UNLINK =>
    if s.unlinkReceived then
      some ({ s with TGChange := now, TG_connect_state := TG_STATUS.SEND_REPLY,
                     m_dstid := s.m_next_dstid, unlinkReceived := false }, [])
    else some (s, [])
  | TG_STATUS.SEND_REPLY =>
    if elapsed now s.TGChange > 600 then
      some ({ s with TGChange := now, TG_connect_state := TG_STATUS.SEND_PTT },
        [Out.sendConnectReply s.m_dstid])
    else some (s, [])
  | TG_STATUS.SEND_PTT =>
    if elapsed now s.TGChange > 600 then
      match findYSFID findID s.m_defsrcid s.m_ysfSrc with
      | none => none
      | some id =>
        some ({ s with TGChange := now, TG_connect_state := TG_STATUS.NONE, m_srcid := id },
          SendDummyDMR id s.m_next_dstid FLCO.FLCO_GROUP)
    else some (s, [])
  | TG_STATUS.NONE => some (s, [])

/-- The test `if ((TG_connect_state != NONE) && (TGChange.elapsed() > 12000))` that
follows the switch. -/
def tgTimeout (now : Nat) (s : Gateway) : Gateway :=
  if s.TG_connect_state ≠ TG_STATUS.NONE ∧ elapsed now s.TGChange > 12000 then
    { s with TG_connect_state := TG_STATUS.NONE }
  else s

/-- The first part of the loop body of `run`: the switch on the control state
followed by the timeout test. -/
def advanceTG (findID : List Char → Nat) (now : Nat) (s : Gateway) :
    Option (Gateway × List Out) :=
  match tgSwitch findID now s with
  | none => none
  | some (s, out) => some (tgTimeout now s, out)

/-- The part shared by the two `case WXS_CONNECT:` blocks of `run` after the
destination has been stored and found different from 4000: the test
`sendDisconnect && (m_dstid != 9U)`, its two branches and `TGChange.start()`. -/
def connectTail (findID : List Char → Nat) (now : Nat) (s : Gateway) (f : YSFIn) :
    Option (Gateway × List Out) :=
  if s.sendDisconnect ∧ s.m_dstid ≠ 9 then
    let m_ysfSrc := ysfSrcOf f.source
    match findYSFID findID s.m_defsrcid m_ysfSrc with
    | none => none
    | some id =>
      some ({ s with m_dstid := 4000, m_ysfSrc := m_ysfSrc, m_srcid := id,
                     unlinkReceived := false,
                     TG_connect_state := TG_STATUS.WAITING_UNLINK, TGChange := now },
        SendDummyDMR id 4000 FLCO.FLCO_GROUP)
  else
    some ({ s with m_dstid := s.m_next_dstid, TG_connect_state := TG_STATUS.SEND_REPLY,
                   TGChange := now }, [])

/-- The two `case WXS_DISCONNECT:` blocks of `run`, which do the same. -/
def disconnectCase (findID : List Char → Nat) (now : Nat) (s : Gateway) (f : YSFIn) :
    Option (Gateway × List Out) :=
  let m_ysfSrc := ysfSrcOf f.source
  match findYSFID findID s.m_defsrcid m_ysfSrc with
  | none => none
  | some id =>
    some ({ s with m_dstid := 4000, m_next_dstid := 9, m_ysfSrc := m_ysfSrc, m_srcid := id,
                   TG_connect_state := TG_STATUS.WAITING_UNLINK, TGChange := now },
      SendDummyDMR id 4000 FLCO.FLCO_GROUP)

/-- The first `switch (status)` of the YSF read loop, on the result of
`m_wiresX->process`. The boolean of the result is `true` when the block ends in
`continue`, so that the rest of the loop body is skipped for this frame. -/
def wiresXCase (findID : List Char → Nat) (now : Nat) (s : Gateway) (f : YSFIn) :
    Option (Gateway × List Out × Bool) :=
  match f.wx with
  | WX_STATUS.WXS_CONNECT =>
    let s := { s with m_next_dstid := f.wxReflector }
    let s := { s with dmrflco :=
      if s.m_next_dstid = 9990 then FLCO.FLCO_USER_USER else FLCO.FLCO_GROUP }
    if s.m_next_dstid = 4000 then some (s, [], true)
    else
      match connectTail findID now s f with
      | none => none
      | some (s, out) => some (s, out, false)
  | WX_STATUS.WXS_DX => some (s, [], false)
  | WX_STATUS.WXS_DISCONNECT =>
    match disconnectCase findID now s f with
    | none => none
    | some (s, out) => some (s, out, false)
  | WX_STATUS.WXS_NONE =>
    if f.isYSFD then
      if f.isVDMode2 then
        match f.fi with
        | FI.YSF_FI_HEADER =>
          match f.header with
          | some ysfSrc =>
            match findYSFID findID s.m_defsrcid ysfSrc with
            | none => none
            | some id =>
              some ({ s with m_srcid := id, m_ysfFrames := 0 }, [Out.putYSFHeader], false)
          | none => some (s, [], false)
        | FI.YSF_FI_TERMINATOR =>
          some ({ s with m_ysfFrames := 0 }, [Out.putYSFEOT], false)
        | FI.YSF_FI_COMMUNICATIONS =>
          some ({ s with m_ysfFrames := (s.m_ysfFrames + 1) % 4294967296 }, [Out.putYSF], false)
        | FI.YSF_FI_TEST => some (s, [], false)
      else some (s, [], false)
    else some (s, [], false)

/-- The second `switch (status)` of the YSF read loop, on the result of
`m_dtmf->decodeVDMode2` (`WXS_NONE` when the frame is not in V/D mode 2). The boolean
of the result is `true` when the block ends in `continue`. -/
def dtmfCase (findID : List Char → Nat) (now : Nat) (s : Gateway) (f : YSFIn) :
    Option (Gateway × List Out × Bool) :=
  let status := if f.isVDMode2 then f.dtmf else WX_STATUS.WXS_NONE
  match status with
  | WX_STATUS.WXS_CONNECT =>
    let s := { s with m_next_dstid := f.dtmfReflector }
    if s.m_next_dstid = 4000 then some (s, [], true)
    else
      let s := { s with dmrflco :=
        if s.m_next_dstid = 9990 then FLCO.FLCO_USER_USER else FLCO.FLCO_GROUP }
      match connectTail findID now s f with
      | none => none
      | some (s, out) => some (s, out, false)
  | WX_STATUS.WXS_DISCONNECT =>
    match disconnectCase findID now s f with
    | none => none
    | some (s, out) => some (s, out, false)
  | _ => some (s, [], false)

/-- The body of `while (m_ysfNetwork->read(buffer) > 0U)` for one frame. The calls on
`m_gps` and the resets of `m_gps` and `m_dtmf` at the end of the body have no effect
on the session state and are left out. -/
def ysfFrame (findID : List Char → Nat) (now : Nat) (s : Gateway) (f : YSFIn) :
    Option (Gateway × List Out) :=
  if f.valid then
    match wiresXCase findID now s f with
    | none => none
    | some (s, out1, true) => some (s, out1)
    | some (s, out1, false) =>
      match dtmfCase findID now s f with
      | none => none
      | some (s, out2, _) => some (s, out1 ++ out2)
  else some (s, [])

/-- The `while (m_ysfNetwork->read(buffer) > 0U)` loop over the frames read. -/
def ysfLoop (findID : List Char → Nat) (now : Nat) :
    Gateway → List YSFIn → Option (Gateway × List Out)
  | s, [] => some (s, [])
  | s, f :: fs =>
    match ysfFrame findID now s f with
    | none => none
    | some (s, out1) =>
      match ysfLoop findID now s fs with
      | none => none
      | some (s, out2) => some (s, out1 ++ out2)

/-- Increment of an `unsigned char` counter. -/
def incr8 (c : Nat) : Nat := (c + 1) % 256

/-- Subtraction of two `unsigned int` values, modulo `2 ^ 32`. -/
def usub32 (a b : Nat) : Nat := if b ≤ a then a - b else 4294967296 - (b - a)

/-- The expression `(dmr_cnt - 3U) % 6U`: the counter is converted to `unsigned int`
and the subtraction is taken modulo `2 ^ 32`. -/
def nDMR (dmr_cnt : Nat) : Nat := usub32 dmr_cnt 3 % 6

/-- The loop `for (i = 0; i < fill; i++)` of the `TAG_EOT` branch with `fill`
iterations left: one silence frame with embedded fragment `n_dmr` per iteration.
The result is the frames written and the final `n_dmr` and `dmr_cnt`. -/
def fillLoop (s : Gateway) : Nat → Nat → Nat → List Out × Nat × Nat
  | 0, n_dmr, dmr_cnt => ([], n_dmr, dmr_cnt)
  | fill + 1, n_dmr, dmr_cnt =>
    let rx_dmrdata : CDMRData :=
      { slotNo := 2, srcId := s.m_srcid, dstId := s.m_dstid, flco := s.dmrflco, n := n_dmr,
        seqNo := dmr_cnt, dataType := DataType.DT_VOICE, emb := some n_dmr, silence := true }
    let r := fillLoop s fill (n_dmr + 1) (incr8 dmr_cnt)
    (Out.dmrWrite rx_dmrdata :: r.1, r.2)

/-- The block `if (dmrWatch.elapsed() > DMR_FRAME_PER)` of `run` once the test has
passed, for the tag returned by `m_conv.getDMR`. -/
def dmrOutput (s : Gateway) (dmrFrameType : TAG) : Gateway × List Out :=
  match dmrFrameType with
  | TAG.TAG_HEADER =>
    let rx_dmrdata : CDMRData :=
      { slotNo := 2, srcId := s.m_srcid, dstId := s.m_dstid, flco := s.dmrflco, n := 0,
        seqNo := 0, dataType := DataType.DT_VOICE_LC_HEADER, emb := none, silence := false }
    ({ s with dmr_cnt := 3 },
      [Out.dmrWrite { rx_dmrdata with seqNo := 0 },
       Out.dmrWrite { rx_dmrdata with seqNo := 1 },
       Out.dmrWrite { rx_dmrdata with seqNo := 2 }])
  | TAG.TAG_EOT =>
    let n_dmr := nDMR s.dmr_cnt
    let fill := 6 - n_dmr
    let r : List Out × Nat × Nat :=
      if n_dmr ≠ 0 then fillLoop s fill n_dmr s.dmr_cnt else ([], n_dmr, s.dmr_cnt)
    let rx_dmrdata : CDMRData :=
      { slotNo := 2, srcId := s.m_srcid, dstId := s.m_dstid, flco := s.dmrflco, n := r.2.1,
        seqNo := r.2.2, dataType := DataType.DT_TERMINATOR_WITH_LC, emb := none,
        silence := false }
    ({ s with dmr_cnt := r.2.2 }, r.1 ++ [Out.dmrWrite rx_dmrdata])
  | TAG.TAG_DATA =>
    let n_dmr := nDMR s.dmr_cnt
    let rx_dmrdata : CDMRData :=
      if n_dmr = 0 then
        { slotNo := 2, srcId := s.m_srcid, dstId := s.m_dstid, flco := s.dmrflco, n := n_dmr,
          seqNo := s.dmr_cnt, dataType := DataType.DT_VOICE_SYNC, emb := none,
          silence := false }
      else
        { slotNo := 2, srcId := s.m_srcid, dstId := s.m_dstid, flco := s.dmrflco, n := n_dmr,
          seqNo := s.dmr_cnt, dataType := DataType.DT_VOICE, emb := some n_dmr,
          silence := false }
    ({ s with dmr_cnt := incr8 s.dmr_cnt }, [Out.dmrWrite rx_dmrdata])
  | TAG.TAG_NODATA => (s, [])

/-- The body of `while (m_dmrNetwork->read(tx_dmrdata) > 0U)` for one record. The
resolution of the callsigns and of the position at a voice header only fills the
strings and the beacon buffer copied into YSF payloads and is left out. -/
def dmrFrame (ms : Nat) (s : Gateway) (d : DMRIn) : Gateway × List Out :=
  let voice : Bool :=
    d.dataType = DataType.DT_VOICE_SYNC ∨ d.dataType = DataType.DT_VOICE
  let r : Gateway × List Out :=
    if ¬ d.missing then
      let r1 : Gateway × List Out :=
        if d.dataType = DataType.DT_TERMINATOR_WITH_LC then
          ({ s with unlinkReceived := if d.srcId = 4000 then true else s.unlinkReceived,
                    m_dmrFrames := 0 },
            [Out.watchdogStart, Out.putDMREOT, Out.dmrReset, Out.watchdogStop])
        else (s, [Out.watchdogStart])
      let r2 : Gateway × List Out :=
        if d.dataType = DataType.DT_VOICE_LC_HEADER ∧ d.dataType ≠ s.m_dmrLastDT then
          ({ r1.1 with m_dmrFrames := 0 }, r1.2 ++ [Out.putDMRHeader])
        else r1
      if voice then
        ({ r2.1 with m_dmrFrames := (r2.1.m_dmrFrames + 1) % 4294967296 }, r2.2 ++ [Out.putDMR])
      else r2
    else
      let r1 : Gateway × List Out :=
        if voice then
          ({ s with m_dmrFrames := (s.m_dmrFrames + 1) % 4294967296 }, [Out.putDMR])
        else (s, [])
      if d.expired then
        ({ r1.1 with m_dmrFrames := 0 },
          r1.2 ++ [Out.watchdogClock ms, Out.dmrReset, Out.watchdogStop])
      else (r1.1, r1.2 ++ [Out.watchdogClock ms])
  ({ r.1 with m_dmrLastDT := d.dataType }, r.2)

/-- The `while (m_dmrNetwork->read(tx_dmrdata) > 0U)` loop over the records read. -/
def dmrLoop (ms : Nat) : Gateway → List DMRIn → Gateway × List Out
  | s, [] => (s, [])
  | s, d :: ds =>
    let r1 := dmrFrame ms s d
    let r2 := dmrLoop ms r1.1 ds
    (r2.1, r1.2 ++ r2.2)

/-- The expression `(ysf_cnt - 1U) % 8U`. -/
def fnYSF (ysf_cnt : Nat) : Nat := usub32 ysf_cnt 1 % 8

/-- The block `if (ysfWatch.elapsed() > YSF_FRAME_PER)` of `run` once the test has
passed, for the tag returned by `m_conv.getYSF`. -/
def ysfOutput (s : Gateway) (ysfFrameType : TAG) : Gateway × List Out :=
  match ysfFrameType with
  | TAG.TAG_HEADER =>
    ({ s with ysf_cnt := incr8 0 },
      [Out.ysfWrite { fi := FI.YSF_FI_HEADER, fn := 0, counter := 0,
                      payload := YSFPayload.header }])
  | TAG.TAG_EOT =>
    (s, [Out.ysfWrite { fi := FI.YSF_FI_TERMINATOR, fn := 0, counter := s.ysf_cnt,
                        payload := YSFPayload.header }])
  | TAG.TAG_DATA =>
    let fn := fnYSF s.ysf_cnt
    let payload : YSFPayload :=
      match fn with
      | 0 => YSFPayload.stars
      | 1 => YSFPayload.netSrc
      | 2 => YSFPayload.netDst
      | 6 => YSFPayload.gps1
      | 7 => YSFPayload.gps2
      | _ => YSFPayload.blanks
    ({ s with ysf_cnt := incr8 s.ysf_cnt },
      [Out.ysfWrite { fi := FI.YSF_FI_COMMUNICATIONS, fn := fn,
                      counter := ((s.ysf_cnt &&& 0x7F) <<< 1) % 256, payload := payload }])
  | TAG.TAG_NODATA => (s, [])

/-- One iteration of the loop of `CYSF2DMR::run`: the state machine, the YSF read
loop, the DMR output, the DMR read loop and the YSF output, in this order. The
result is `none` when `findYSFID` throws. -/
def loopBody (findID : List Char → Nat) (s : Gateway) (i : Inputs) :
    Option (Gateway × List Out) :=
  match advanceTG findID i.now s with
  | none => none
  | some (s, out1) =>
    match ysfLoop findID i.now s i.ysfIn with
    | none => none
    | some (s, out2) =>
      let r3 : Gateway × List Out :=
        match i.dmrTick with
        | some tag => dmrOutput s tag
        | none => (s, [])
      let r4 := dmrLoop i.ms r3.1 i.dmrIn
      let r5 : Gateway × List Out :=
        match i.ysfTick with
        | some tag => ysfOutput r4.1 tag
        | none => (r4.1, [])
      some (r5.1, out1 ++ out2 ++ r3.2 ++ r4.2 ++ r5.2)

/-- The loop of `CYSF2DMR::run` over the inputs of successive iterations. -/
def runLoop (findID : List Char → Nat) : Gateway → List Inputs → Option (Gateway × List Out)
  | s, [] => some (s, [])
  | s, i :: is =>
    match loopBody findID s i with
    | none => none
    | some (s, out1) =>
      match runLoop findID s is with
      | none => none
      | some (s, out2) => some (s, out1 ++ out2)

/-- Successive passes through the DMR output block, one per tag. -/
def dmrOutputs : Gateway → List TAG → Gateway × List Out
  | s, [] => (s, [])
  | s, tag :: tags =>
    let r1 := dmrOutput s tag
    let r2 := dmrOutputs r1.1 tags
    (r2.1, r1.2 ++ r2.2)

/-- Session state at the entry of the loop of `run`: `m_dstid`, `m_defsrcid` and
`m_dmrpc` come from the configuration, `m_ysfSrc` is the empty string of a
default-constructed `std::string` and `m_dmrLastDT` is 0, taken to be none of the four
data types the driver tests for. The member `m_next_dstid` is not initialised by the
program, so its value is a parameter. -/
def startup (sendDisconnect m_dmrpc : Bool) (m_dstid m_defsrcid m_next_dstid : Nat) : Gateway :=
  { TG_connect_state := TG_STATUS.NONE
    unlinkReceived := false
    sendDisconnect := sendDisconnect
    TGChange := 0
    dmrflco := if m_dmrpc then FLCO.FLCO_USER_USER else FLCO.FLCO_GROUP
    m_dstid := m_dstid
    m_next_dstid := m_next_dstid
    m_srcid := m_defsrcid
    m_defsrcid := m_defsrcid
    m_ysfSrc := []
    dmr_cnt := 0
    ysf_cnt := 0
    m_dmrFrames := 0
    m_ysfFrames := 0
    m_dmrLastDT := DataType.DT_OTHER }

/-- A frame without signalling: valid FICH, nothing for Wires-X or DTMF. -/
def plainFrame (source : List Char) : YSFIn :=
  { valid := true, fi := FI.YSF_FI_COMMUNICATIONS, isVDMode2 := false,
    wx := WX_STATUS.WXS_NONE, wxReflector := 0, dtmf := WX_STATUS.WXS_NONE, dtmfReflector := 0,
    source := source, isYSFD := true, header := none }

/-- A Wires-X connect request for `reflector` sent by `source`. -/
def wxConnect (source : List Char) (reflector : Nat) : YSFIn :=
  { plainFrame source with wx := WX_STATUS.WXS_CONNECT, wxReflector := reflector }

/-- A DTMF connect request for `reflector` sent by `source`. -/
def dtmfConnect (source : List Char) (reflector : Nat) : YSFIn :=
  { plainFrame source with isVDMode2 := true, dtmf := WX_STATUS.WXS_CONNECT,
                           dtmfReflector := reflector }

/-- A Wires-X disconnect request sent by `source`. -/
def wxDisconnect (source : List Char) : YSFIn :=
  { plainFrame source with wx := WX_STATUS.WXS_DISCONNECT }

/-- A DTMF disconnect request sent by `source`. -/
def dtmfDisconnect (source : List Char) : YSFIn :=
  { plainFrame source with isVDMode2 := true, dtmf := WX_STATUS.WXS_DISCONNECT }

/-- A terminator received from the DMR network with source `srcId`, not missing. -/
def dmrTerminator (srcId dstId : Nat) : DMRIn :=
  { srcId := srcId, dstId := dstId, flco := FLCO.FLCO_GROUP,
    dataType := DataType.DT_TERMINATOR_WITH_LC, missing := false, expired := false }

/-- An iteration at clock reading `now` in which nothing is read and no output
clock has elapsed. -/
def quiet (now : Nat) : Inputs :=
  { now := now, ms := 5, ysfIn := [], dmrTick := none, dmrIn := [], ysfTick := none }

/-- A callsign field as a radio sends it. -/
def callsign : List Char := "EA7EE     ".toList

/-- A callsign field of ten blanks. -/
def blankCallsign : List Char := "          ".toList

/-- The lookup of a table in which no callsign is found. -/
def noID : List Char → Nat := fun _ => 0

/-- A switch to talk group 5 with disconnect-on-switch, a Wires-X request for 4000
while the unlink confirmation is awaited, the confirmation, and three more
iterations 100, 700 and 700 ms apart. -/
def overwriteInputs : List Inputs :=
  [ { quiet 1000 with ysfIn := [wxConnect callsign 5] },
    { quiet 1100 with ysfIn := [wxConnect callsign 4000], dmrIn := [dmrTerminator 4000 9] },
    quiet 1200, quiet 1900, quiet 2600 ]

/-- A session on the private destination 9990 in the idle state. -/
def parrotSession : Gateway :=
  { startup true false 9990 2140001 9990 with dmrflco := FLCO.FLCO_USER_USER,
                                               m_ysfSrc := "EA7EE ".toList }

/-- A Wires-X request for talk group 5 at the first iteration and one iteration
700 ms later. -/
def connectInputs : List Inputs :=
  [ { quiet 1000 with ysfIn := [wxConnect callsign 5] }, quiet 1700 ]

/-- A terminator from 4000 while idle, an explicit disconnect one second later and
the next iteration. -/
def staleUnlinkInputs : List Inputs :=
  [ { quiet 1000 with dmrIn := [dmrTerminator 4000 9] },
    { quiet 2000 with ysfIn := [wxDisconnect callsign] } ]

/-- A session in `SEND_REPLY` whose stopwatch was started at clock reading 0. -/
def replyPending : Gateway :=
  { startup false false 5 2140001 5 with TG_connect_state := TG_STATUS.SEND_REPLY }

/-- A session in `WAITING_UNLINK` whose stopwatch was started at clock reading 0. -/
def unlinkPending : Gateway :=
  { startup true false 4000 2140001 5 with TG_connect_state := TG_STATUS.WAITING_UNLINK }

/-- An idle session on talk group 9 that has stored a source callsign. -/
def idleSession : Gateway :=
  { startup true false 9 2140001 9 with m_ysfSrc := "EA7EE ".toList }

/-- The data type and the position `n` of the records written, in order. -/
def positions : List Out → List (DataType × Nat)
  | [] => []
  | Out.dmrWrite d :: out => (d.dataType, d.n) :: positions out
  | _ :: out => positions out

/-- The session has sent the unlink call of a switch and no confirmation is recorded:
disconnect-on-switch is enabled, the current destination is 4000, `unlinkReceived` is
clear and the control state is `WAITING_UNLINK`, or `NONE` after a timeout. -/
def AwaitingUnlink (s : Gateway) : Prop :=
  s.sendDisconnect = true ∧ s.m_dstid = 4000 ∧ s.unlinkReceived = false
    ∧ (s.TG_connect_state = TG_STATUS.WAITING_UNLINK ∨ s.TG_connect_state = TG_STATUS.NONE)

instance (s : Gateway) : Decidable (AwaitingUnlink s) := by
  unfold AwaitingUnlink; infer_instance

/-- The record is a terminator from source 4000 that is not missing. -/
def isUnlinkTerminator (d : DMRIn) : Bool :=
  !d.missing && d.dataType == DataType.DT_TERMINATOR_WITH_LC && d.srcId == 4000

/-- The output contains a connect acknowledgement. -/
def hasReply : List Out → Bool
  | [] => false
  | Out.sendConnectReply _ :: _ => true
  | _ :: out => hasReply out

/-- Successive passes through the YSF output block, one per tag. -/
def ysfOutputs : Gateway → List TAG → Gateway × List Out
  | s, [] => (s, [])
  | s, tag :: tags =>
    let r1 := ysfOutput s tag
    let r2 := ysfOutputs r1.1 tags
    (r2.1, r1.2 ++ r2.2)

/-- The FICH frame numbers of the YSF data frames (frame indicator
`YSF_FI_COMMUNICATIONS`) written, in order. -/
def frameNumbers : List Out → List Nat
  | [] => []
  | Out.ysfWrite f :: out =>
    if f.fi = FI.YSF_FI_COMMUNICATIONS then f.fn :: frameNumbers out else frameNumbers out
  | _ :: out => frameNumbers out

/-- The tags returned by `m_conv.getYSF` over successive iterations, in order. -/
def ysfTicks : List Inputs → List TAG
  | [] => []
  | i :: is =>
    match i.ysfTick with
    | some tag => tag :: ysfTicks is
    | none => ysfTicks is

/-- The records given to `m_dmrNetwork->write`, in order. -/
def dmrWritten : List Out → List CDMRData
  | [] => []
  | Out.dmrWrite d :: out => d :: dmrWritten out
  | _ :: out => dmrWritten out

/-- The value of the local `cstrim` of `findYSFID` when `m_lookup->findID` is called, the
lookup key; `none` when `substr` throws. -/
def cstrim (cs : List Char) : Option (List Char) :=
  let first := find_first_not_of cs ' '
  let mid1 := find_last_of cs '-'
  let mid2 := find_last_of cs '/'
  let last := find_last_not_of cs ' '
  if mid1 = -1 ∧ mid2 = -1 then substr cs first (last - first + 1)
  else if mid1 > first then substr cs first (mid1 - first)
  else if mid2 > first then substr cs first (mid2 - first)
  else some "N0CALL".toList

/-- The value `createDMRNetwork` gives to `m_defsrcid` for the configured DMR ID
`m_srcHS`. -/
def defsrcid (m_srcHS : Nat) : Nat :=
  if m_srcHS > 99999999 then m_srcHS / 100
  else if m_srcHS > 9999999 then m_srcHS / 10
  else m_srcHS

/-- A session on talk group 9 in the middle of a transmission received from the DMR
network: 100 voice records have been counted. -/
def openTransmission : Gateway :=
  { startup false false 9 2140001 9 with m_dmrFrames := 100,
                                          m_dmrLastDT := DataType.DT_VOICE }

/-- A voice record flagged missing, handled when the watchdog has run out. -/
def lostFrame : DMRIn :=
  { srcId := 2140002, dstId := 9, flco := FLCO.FLCO_GROUP, dataType := DataType.DT_VOICE,
    missing := true, expired := true }

/-- A transmission towards the YSF network seen from the loop: the pipeline returns a
header, then 300 data units and an end of transmission, one per iteration. -/
def voiceInputs : List Inputs :=
  { quiet 1000 with ysfTick := some TAG.TAG_HEADER }
    :: (List.replicate 300 { quiet 1100 with ysfTick := some TAG.TAG_DATA }
        ++ [{ quiet 1200 with ysfTick := some TAG.TAG_EOT }])

/-- A session in `SEND_PTT` whose stopwatch was started at clock reading 0, with a
stored source callsign. -/
def pttPending : Gateway :=
  { startup false false 5 2140001 5 with TG_connect_state := TG_STATUS.SEND_PTT,
                                          m_ysfSrc := "EA7EE ".toList }

/-- The lookup of a table that holds `EA7EE` with ID 2140001. -/
def oneID : List Char → Nat := fun cs => if cs = "EA7EE".toList then 2140001 else 0

end YSF2DMR

namespace APRSReader

theorem crcLoop_eq_sum (buffer : List Nat) :
    ∀ (n i crc : Nat), i + n ≤ buffer.length →
      crcLoop buffer i n crc = crc + ((buffer.drop i).take n).sum := by
  intro n
  induction n with
  | zero => intro i crc _; simp [crcLoop]
  | succ n ih =>
    intro i crc hlen
    have hi : i < buffer.length := by omega
    have hd : buffer.drop i = buffer[i] :: buffer.drop (i + 1) := List.drop_eq_getElem_cons hi
    have hp : peek buffer i = buffer[i] := List.getD_eq_getElem _ _ hi
    rw [crcLoop, ih (i + 1) _ (by omega), hd, List.take_succ_cons, List.sum_cons, hp]
    omega

theorem checksum_of_set (buffer : List Nat) (h : buffer.length = 20) :
    peek (buffer.set 19 (crcLoop buffer 0 19 0 &&& 0x00FF)) 19
      = ((buffer.set 19 (crcLoop buffer 0 19 0 &&& 0x00FF)).take 19).sum % 256 := by
  have hs : crcLoop buffer 0 19 0 = (buffer.take 19).sum := by
    rw [crcLoop_eq_sum buffer 19 0 0 (by omega)]; simp
  have hand : ∀ x : Nat, x &&& 0x00FF = x % 256 := fun x =>
    Nat.and_pow_two_sub_one_eq_mod x 8
  rw [hand, hs]
  have h19 : 19 < (buffer.set 19 ((buffer.take 19).sum % 256)).length := by simp [h]
  rw [peek, List.getD_eq_getElem _ _ h19, List.getElem_set_self, List.set_take,
    List.set_eq_of_length_le (by simp)]

theorem peek_set (l : List Nat) (i j v : Nat) :
    peek (l.set i v) j = if i = j ∧ i < l.length then v else peek l j := by
  unfold peek
  simp only [List.getD_eq_getElem?_getD, List.getElem?_set]
  by_cases hij : i = j
  · subst hij
    by_cases hl : i < l.length
    · simp [hl]
    · simp [hl, List.getElem?_eq_none (Nat.le_of_not_lt hl)]
  · simp [hij]

theorem nibbles_digit (d s : Int) (hd : 0 ≤ d ∧ d ≤ 9) (hs : s = 0x30 ∨ s = 0x50) :
    lowNibble (toByte (Int.lor d s)) = d.toNat ∧
      highNibble (toByte (Int.lor d s)) = (s / 16).toNat := by
  obtain ⟨h0, h9⟩ := hd
  interval_cases d <;> rcases hs with rfl | rfl <;> decide

theorem toByte_cast (x : Int) : ((toByte x : Nat) : Int) = x % 256 :=
  Int.toNat_of_nonneg (Int.emod_nonneg x (by decide))

theorem formatGPS_bytes (buffer : List Nat) (lat lon : Int) (hlen : buffer.length = 20) :
    peek (formatGPS buffer lat lon) 5 = toByte (Int.lor (Int.tdiv (magnitude lat) 10000) 0x50) ∧
    peek (formatGPS buffer lat lon) 6
      = toByte (Int.lor (Int.tmod (Int.tdiv (magnitude lat) 1000) 10) (signCode lon)) ∧
    peek (formatGPS buffer lat lon) 7
      = toByte (Int.lor (Int.tdiv (latMin (magnitude lat)) 1000) 0x50) ∧
    peek (formatGPS buffer lat lon) 8
      = toByte (Int.lor (Int.tmod (Int.tdiv (latMin (magnitude lat)) 100) 10) (signCode lat)) ∧
    peek (formatGPS buffer lat lon) 9
      = toByte (Int.lor (Int.tdiv (latFrac (magnitude lat)) 10)
          (lonA (Int.tdiv (magnitude lon) 1000))) ∧
    peek (formatGPS buffer lat lon) 10
      = toByte (Int.lor (Int.tmod (latFrac (magnitude lat)) 10) 0x50) ∧
    peek (formatGPS buffer lat lon) 11 = toByte (lonB (Int.tdiv (magnitude lon) 1000)) ∧
    peek (formatGPS buffer lat lon) 12 = toByte (lonMinB (longMin (magnitude lon))) ∧
    peek (formatGPS buffer lat lon) 13 = toByte (toUInt32 (longMinFrac (magnitude lon) + 0x1C)) := by
  simp only [formatGPS, peek_set, List.length_set, hlen]
  simp only [Nat.reduceEqDiff, Nat.reduceLT, and_true, and_false, false_and, true_and, if_true,
    if_false]
  exact ⟨rfl, rfl, rfl, rfl, rfl, rfl, rfl, rfl, rfl⟩

theorem magnitude_spec (x : Int) (hx : -2147483648 < x ∧ x < 2147483648) :
    (x < 0 ∧ magnitude x = -x ∧ signCode x = 0x30)
      ∨ (¬ x < 0 ∧ magnitude x = x ∧ signCode x = 0x50) := by
  unfold magnitude signCode toInt32
  split_ifs with h
  · left; omega
  · right; omega

theorem latMin_eq (L : Int) (hL : 0 ≤ L) : latMin L = L % 1000 * 6 := by
  unfold latMin
  rw [Int.tdiv_eq_ediv hL (by omega), Int.tdiv_eq_ediv hL (by omega),
    Int.tmod_eq_emod (by omega) (by omega)]
  omega

theorem latFrac_eq (L : Int) (hL : 0 ≤ L) : latFrac L = latMin L % 100 := by
  unfold latFrac
  have hM := latMin_eq L hL
  generalize latMin L = M at *
  rw [Int.tdiv_eq_ediv (by omega) (by omega), Int.tdiv_eq_ediv (by omega) (by omega),
    Int.tmod_eq_emod (by omega) (by omega)]
  omega

theorem lat_arith (L M F : Int) (n1 n2 n3 n4 n5 n6 : Nat)
    (h1 : (n1 : Int) = L / 10000) (h2 : (n2 : Int) = L / 1000 % 10) (hM : M = L % 1000 * 6)
    (h3 : (n3 : Int) = M / 1000) (h4 : (n4 : Int) = M / 100 % 10) (hF : F = M % 100)
    (h5 : (n5 : Int) = F / 10) (h6 : (n6 : Int) = F % 10) :
    (((10 * n1 + n2) * 1000 + ((10 * n3 + n4) * 100 + (10 * n5 + n6)) / 6 : Nat) : Int) = L := by
  have a1 : L / 1000 / 10 = L / 10000 := by omega
  have a2 : M / 100 / 10 = M / 1000 := by omega
  have hD : ((10 * n1 + n2 : Nat) : Int) = L / 1000 := by omega
  have hQ : (((10 * n3 + n4) * 100 + (10 * n5 + n6) : Nat) : Int) = M := by omega
  generalize 10 * n1 + n2 = D at *
  generalize (10 * n3 + n4) * 100 + (10 * n5 + n6) = Q at *
  omega

theorem lonA_cases (g : Int) : lonA g = 0x30 ∨ lonA g = 0x50 := by
  unfold lonA; split_ifs <;> simp

theorem decodeLatitude_formatGPS (buffer : List Nat) (lat lon : Int) (hlen : buffer.length = 20)
    (hlat : -90000 ≤ lat ∧ lat ≤ 90000) :
    decodeLatitude (formatGPS buffer lat lon) = lat := by
  obtain ⟨h5, h6, h7, h8, h9, h10, -, -, -⟩ := formatGPS_bytes buffer lat lon hlen
  unfold decodeLatitude
  simp only [h5, h6, h7, h8, h9, h10]
  clear h5 h6 h7 h8 h9 h10
  have hmag := magnitude_spec lat (by omega)
  have hs1 : signCode lon = 0x30 ∨ signCode lon = 0x50 := by
    unfold signCode; split_ifs <;> simp
  generalize magnitude lat = L at *
  generalize signCode lat = s2 at *
  generalize signCode lon = s1 at *
  have hL0 : 0 ≤ L ∧ L ≤ 90000 := by omega
  have hM0 := latMin_eq L hL0.1
  have hF0 := latFrac_eq L hL0.1
  generalize latMin L = M at *
  generalize latFrac L = F at *
  have e1 : L.tdiv 10000 = L / 10000 := Int.tdiv_eq_ediv (by omega) (by omega)
  have e2 : L.tdiv 1000 = L / 1000 := Int.tdiv_eq_ediv (by omega) (by omega)
  have e3 : (L / 1000).tmod 10 = (L / 1000) % 10 := Int.tmod_eq_emod (by omega) (by omega)
  have e4 : M.tdiv 1000 = M / 1000 := Int.tdiv_eq_ediv (by omega) (by omega)
  have e5 : M.tdiv 100 = M / 100 := Int.tdiv_eq_ediv (by omega) (by omega)
  have e6 : (M / 100).tmod 10 = (M / 100) % 10 := Int.tmod_eq_emod (by omega) (by omega)
  have e7 : F.tdiv 10 = F / 10 := Int.tdiv_eq_ediv (by omega) (by omega)
  have e8 : F.tmod 10 = F % 10 := Int.tmod_eq_emod (by omega) (by omega)
  rw [e1, e2, e3, e4, e5, e6, e7, e8]
  have p1 : 0 ≤ L / 10000 := by omega
  have p2 : 0 ≤ L / 1000 % 10 := by omega
  have p3 : 0 ≤ M / 1000 := by omega
  have p4 : 0 ≤ M / 100 % 10 := by omega
  have p5 : 0 ≤ F / 10 := by omega
  have p6 : 0 ≤ F % 10 := by omega
  rw [(nibbles_digit (L / 10000) 80 (by omega) (by simp)).1,
    (nibbles_digit (L / 1000 % 10) s1 (by omega) hs1).1,
    (nibbles_digit (M / 1000) 80 (by omega) (by simp)).1,
    (nibbles_digit (M / 100 % 10) s2 (by omega) (by omega)).1,
    (nibbles_digit (M / 100 % 10) s2 (by omega) (by omega)).2,
    (nibbles_digit (F / 10) _ (by omega) (lonA_cases _)).1,
    (nibbles_digit (F % 10) 80 (by omega) (by simp)).1]
  rw [lat_arith L M F _ _ _ _ _ _ (Int.toNat_of_nonneg p1) (Int.toNat_of_nonneg p2) hM0
    (Int.toNat_of_nonneg p3) (Int.toNat_of_nonneg p4) hF0 (Int.toNat_of_nonneg p5)
    (Int.toNat_of_nonneg p6)]
  rcases hmag with ⟨hneg, hL, rfl⟩ | ⟨hpos, hL, rfl⟩
  · rw [if_pos (by decide)]; omega
  · rw [if_neg (by decide)]; omega

theorem lonAB_spec (g : Int) (hg : 0 ≤ g ∧ g ≤ 179) :
    (lonA g = 0x30 ∧ 10 ≤ g ∧ lonB g = g - 10 + 38)
      ∨ (lonA g = 0x50 ∧ g ≤ 9 ∧ lonB g = g + 118)
      ∨ (lonA g = 0x50 ∧ 100 ≤ g ∧ g ≤ 109 ∧ lonB g = g - 100 + 108)
      ∨ (lonA g = 0x50 ∧ 110 ≤ g ∧ lonB g = g - 110 + 38) := by
  unfold lonA lonB toInt32 toUInt32
  split_ifs <;> omega

theorem lonMinB_spec (m : Int) (hm : 0 ≤ m ∧ m ≤ 59) :
    (m ≤ 9 ∧ lonMinB m = m + 88) ∨ (10 ≤ m ∧ lonMinB m = m - 10 + 38) := by
  unfold lonMinB toInt32 toUInt32
  split_ifs <;> omega

theorem longMin_eq (G : Int) (hG : 0 ≤ G) : longMin G = G % 1000 * 6 / 100 := by
  unfold longMin
  rw [Int.tdiv_eq_ediv hG (by omega)]
  have h : (G - G / 1000 * 1000) * 6 = G % 1000 * 6 := by omega
  rw [h, Int.tdiv_eq_ediv (by omega) (by omega)]

theorem longMinFrac_eq (G : Int) (hG : 0 ≤ G) : longMinFrac G = G % 1000 * 6 % 100 := by
  unfold longMinFrac
  rw [longMin_eq G hG, Int.tdiv_eq_ediv hG (by omega)]
  omega

theorem lon_deg (g A B : Int) (nA b11 : Nat) (hg : 0 ≤ g ∧ g ≤ 179)
    (hAB : (A = 0x30 ∧ 10 ≤ g ∧ B = g - 10 + 38) ∨ (A = 0x50 ∧ g ≤ 9 ∧ B = g + 118)
      ∨ (A = 0x50 ∧ 100 ≤ g ∧ g ≤ 109 ∧ B = g - 100 + 108)
      ∨ (A = 0x50 ∧ 110 ≤ g ∧ B = g - 110 + 38))
    (cA : (nA : Int) = A / 16) (cB : (b11 : Int) = B) :
    (((if nA = 3 then b11 - 0x26 + 10
      else if 0x76 ≤ b11 then b11 - 0x76
      else if 0x6C ≤ b11 then b11 - 0x6C + 100
      else b11 - 0x26 + 110 : Nat)) : Int) = g := by
  rcases hAB with ⟨rfl, h1, rfl⟩ | ⟨rfl, h1, rfl⟩ | ⟨rfl, h1, h2, rfl⟩ | ⟨rfl, h1, rfl⟩ <;>
    split_ifs <;> omega

theorem lon_min (m C : Int) (b12 : Nat) (hm : 0 ≤ m ∧ m ≤ 59)
    (hC : (m ≤ 9 ∧ C = m + 88) ∨ (10 ≤ m ∧ C = m - 10 + 38)) (cC : (b12 : Int) = C) :
    (((if 0x58 ≤ b12 then b12 - 0x58 else b12 - 0x26 + 10 : Nat)) : Int) = m := by
  rcases hC with ⟨h1, rfl⟩ | ⟨h1, rfl⟩ <;> split_ifs <;> omega

theorem decodeLongitude_formatGPS (buffer : List Nat) (lat lon : Int) (hlen : buffer.length = 20)
    (hlat : -90000 ≤ lat ∧ lat ≤ 90000) (hlon : -180000 < lon ∧ lon < 180000) :
    decodeLongitude (formatGPS buffer lat lon) = lon := by
  obtain ⟨-, h6, -, -, h9, -, h11, h12, h13⟩ := formatGPS_bytes buffer lat lon hlen
  unfold decodeLongitude
  simp only [h6, h9, h11, h12, h13]
  clear h6 h9 h11 h12 h13
  have hmagL := magnitude_spec lat (by omega)
  have hmag := magnitude_spec lon (by omega)
  generalize magnitude lat = L at *
  generalize magnitude lon = G at *
  generalize signCode lon = s1 at *
  have hL0 : 0 ≤ L := by omega
  have hG0 : 0 ≤ G ∧ G < 180000 := by omega
  have hM0 := latMin_eq L hL0
  have hF0 := latFrac_eq L hL0
  have hm0 := longMin_eq G hG0.1
  have hf0 := longMinFrac_eq G hG0.1
  have e1 : L.tdiv 1000 = L / 1000 := Int.tdiv_eq_ediv (by omega) (by omega)
  have e2 : (L / 1000).tmod 10 = (L / 1000) % 10 := Int.tmod_eq_emod (by omega) (by omega)
  have e3 : (latFrac L).tdiv 10 = latFrac L / 10 := Int.tdiv_eq_ediv (by omega) (by omega)
  have e4 : G.tdiv 1000 = G / 1000 := Int.tdiv_eq_ediv (by omega) (by omega)
  rw [e1, e2, e3, e4]
  have hg : 0 ≤ G / 1000 ∧ G / 1000 ≤ 179 := by omega
  have hm : 0 ≤ longMin G ∧ longMin G ≤ 59 := by omega
  have hAB := lonAB_spec (G / 1000) hg
  have hC := lonMinB_spec (longMin G) hm
  rw [(nibbles_digit (L / 1000 % 10) s1 (by omega) (by omega)).2,
    (nibbles_digit (latFrac L / 10) _ (by omega) (lonA_cases _)).2]
  have hD : toUInt32 (longMinFrac G + 28) = longMinFrac G + 28 := by
    unfold toUInt32; omega
  rw [hD]
  have cA := Int.toNat_of_nonneg (show 0 ≤ lonA (G / 1000) / 16 by omega)
  have cB : ((toByte (lonB (G / 1000)) : Nat) : Int) = lonB (G / 1000) := by
    rw [toByte_cast]; omega
  have cC : ((toByte (lonMinB (longMin G)) : Nat) : Int) = lonMinB (longMin G) := by
    rw [toByte_cast]; omega
  have cD : ((toByte (longMinFrac G + 28) : Nat) : Int) = longMinFrac G + 28 := by
    rw [toByte_cast]; omega
  have hdeg := lon_deg (G / 1000) _ _ _ _ hg hAB cA cB
  have hmin := lon_min (longMin G) _ _ hm hC cC
  have hfrac : ((toByte (longMinFrac G + 28) - 0x1C : Nat) : Int) = longMinFrac G := by omega
  simp only [Nat.reduceLeDiff] at hdeg hmin hfrac ⊢
  generalize (if (lonA (G / 1000) / 16).toNat = 3 then toByte (lonB (G / 1000)) - 38 + 10
      else if 118 ≤ toByte (lonB (G / 1000)) then toByte (lonB (G / 1000)) - 118
      else if 108 ≤ toByte (lonB (G / 1000)) then toByte (lonB (G / 1000)) - 108 + 100
      else toByte (lonB (G / 1000)) - 38 + 110) = deg at *
  generalize (if 88 ≤ toByte (lonMinB (longMin G)) then toByte (lonMinB (longMin G)) - 88
      else toByte (lonMinB (longMin G)) - 38 + 10) = mn at *
  generalize toByte (longMinFrac G + 28) - 28 = fr at *
  clear hAB hC cA cB cC cD hD e1 e2 e3 e4 hM0 hF0 hmagL
  rcases hmag with ⟨hneg, hGl, rfl⟩ | ⟨hpos, hGl, rfl⟩
  · rw [if_pos (by decide)]; omega
  · rw [if_neg (by decide)]; omega

theorem peek_eq_gpsFields (buffer : List Nat) (k : Nat) (hk : k < 9) :
    peek buffer (5 + k) = (gpsFields buffer).getD k 0 := by
  unfold peek gpsFields
  simp only [List.getD_eq_getElem?_getD, List.getElem?_take, List.getElem?_drop, hk, if_true]

theorem decode_congr (b1 b2 : List Nat) (h : gpsFields b1 = gpsFields b2) :
    decodeLatitude b1 = decodeLatitude b2 ∧ decodeLongitude b1 = decodeLongitude b2 := by
  have hp : ∀ k, k < 9 → peek b1 (5 + k) = peek b2 (5 + k) := by
    intro k hk
    rw [peek_eq_gpsFields b1 k hk, peek_eq_gpsFields b2 k hk, h]
  have h5 := hp 0 (by omega)
  have h6 := hp 1 (by omega)
  have h7 := hp 2 (by omega)
  have h8 := hp 3 (by omega)
  have h9 := hp 4 (by omega)
  have h10 := hp 5 (by omega)
  have h11 := hp 6 (by omega)
  have h12 := hp 7 (by omega)
  have h13 := hp 8 (by omega)
  simp only [Nat.reduceAdd] at h5 h6 h7 h8 h9 h10 h11 h12 h13
  unfold decodeLatitude decodeLongitude
  simp only [h5, h6, h7, h8, h9, h10, h11, h12, h13, and_self]

theorem formatGPS_length (buffer : List Nat) (latitude longitude : Int) :
    (formatGPS buffer latitude longitude).length = buffer.length := by
  unfold formatGPS
  dsimp only
  simp only [List.length_set]

/-- The bytes of the buffer that `formatGPS` does not write are the caller's. -/
theorem formatGPS_untouched (buffer : List Nat) (latitude longitude : Int) (i : Nat)
    (hi : i < 5 ∨ (14 ≤ i ∧ i < 19) ∨ 20 ≤ i) :
    (formatGPS buffer latitude longitude)[i]? = buffer[i]? := by
  unfold formatGPS
  dsimp only
  rw [List.getElem?_set_ne (by omega), List.getElem?_set_ne (by omega),
    List.getElem?_set_ne (by omega), List.getElem?_set_ne (by omega),
    List.getElem?_set_ne (by omega), List.getElem?_set_ne (by omega),
    List.getElem?_set_ne (by omega), List.getElem?_set_ne (by omega),
    List.getElem?_set_ne (by omega), List.getElem?_set_ne (by omega)]

theorem getElem?_eq_peek (l : List Nat) (i : Nat) (h : i < l.length) :
    l[i]? = some (peek l i) := by
  unfold peek
  rw [List.getElem?_eq_getElem h, List.getD_eq_getElem _ _ h]

theorem gpsFields_eq_peeks (l : List Nat) (h : l.length = 20) :
    gpsFields l = [peek l 5, peek l 6, peek l 7, peek l 8, peek l 9, peek l 10, peek l 11,
      peek l 12, peek l 13] := by
  apply List.ext_getElem?
  intro k
  unfold gpsFields
  rw [List.getElem?_take]
  by_cases hk : k < 9
  · rw [if_pos hk, List.getElem?_drop, getElem?_eq_peek l (5 + k) (by omega)]
    interval_cases k <;> rfl
  · rw [if_neg hk]
    exact (List.getElem?_eq_none (by simp; omega)).symm

/-- Claim C1: for every 20-byte buffer and every latitude/longitude pair, the buffer left
by `formatGPS` has 20 bytes again, its byte 19 is the sum of its bytes 0..18 modulo
256, its bytes 0..4 and 14..18 are the caller's and its bytes 5..13 are the nine
bytes computed from the position, so the sum is taken over the bytes after
positions 5..13 have been written. -/
theorem formatGPS_checksum (buffer : List Nat) (latitude longitude : Int)
    (h : buffer.length = 20) :
    (formatGPS buffer latitude longitude).length = 20
    ∧ (formatGPS buffer latitude longitude)[19]?
        = some (((formatGPS buffer latitude longitude).take 19).sum % 256)
    ∧ peek (formatGPS buffer latitude longitude) 19
        = ((formatGPS buffer latitude longitude).take 19).sum % 256
    ∧ (∀ i, i < 5 ∨ (14 ≤ i ∧ i < 19) →
        (formatGPS buffer latitude longitude)[i]? = buffer[i]?)
    ∧ gpsFields (formatGPS buffer latitude longitude)
        = [toByte (Int.lor (Int.tdiv (magnitude latitude) 10000) 0x50),
           toByte (Int.lor (Int.tmod (Int.tdiv (magnitude latitude) 1000) 10)
             (signCode longitude)),
           toByte (Int.lor (Int.tdiv (latMin (magnitude latitude)) 1000) 0x50),
           toByte (Int.lor (Int.tmod (Int.tdiv (latMin (magnitude latitude)) 100) 10)
             (signCode latitude)),
           toByte (Int.lor (Int.tdiv (latFrac (magnitude latitude)) 10)
             (lonA (Int.tdiv (magnitude longitude) 1000))),
           toByte (Int.lor (Int.tmod (latFrac (magnitude latitude)) 10) 0x50),
           toByte (lonB (Int.tdiv (magnitude longitude) 1000)),
           toByte (lonMinB (longMin (magnitude longitude))),
           toByte (toUInt32 (longMinFrac (magnitude longitude) + 0x1C))] := by
  have hlen : (formatGPS buffer latitude longitude).length = 20 := by
    rw [formatGPS_length, h]
  have hsum : peek (formatGPS buffer latitude longitude) 19
      = ((formatGPS buffer latitude longitude).take 19).sum % 256 := by
    unfold formatGPS
    dsimp only
    apply checksum_of_set
    simp [h]
  refine ⟨hlen, ?_, hsum, ?_, ?_⟩
  · rw [getElem?_eq_peek _ 19 (by omega), hsum]
  · intro i hi
    exact formatGPS_untouched buffer latitude longitude i (by omega)
  · obtain ⟨h5, h6, h7, h8, h9, h10, h11, h12, h13⟩ :=
      formatGPS_bytes buffer latitude longitude h
    rw [gpsFields_eq_peeks _ hlen, h5, h6, h7, h8, h9, h10, h11, h12, h13]

/-- Witness of C1 on a buffer that holds the bytes 1, 2, ..., 20, at latitude 37.123
and longitude -5.987: bytes 5..13 are written, the other bytes up to 18 are kept and
byte 19 is the sum of bytes 0..18 modulo 256. -/
theorem formatGPS_checksum_witness :
    ((List.range 20).map (fun i => i + 1)).length = 20
    ∧ formatGPS ((List.range 20).map (fun i => i + 1)) 37123 (-5987)
        = [1, 2, 3, 4, 5, 83, 55, 80, 87, 83, 88, 123, 87, 50, 15, 16, 17, 18, 19, 68]
    ∧ (formatGPS ((List.range 20).map (fun i => i + 1)) 37123 (-5987))[19]?
        = some (((formatGPS ((List.range 20).map (fun i => i + 1)) 37123 (-5987)).take
            19).sum % 256) :=
  ⟨by decide, by decide,
    (formatGPS_checksum ((List.range 20).map (fun i => i + 1)) 37123 (-5987)
      (by decide)).2.1⟩

/-- Claim C2: beacon round trip. For thousandths of a degree with `|lat| ≤ 90000` and
`|lon| < 180000`, decoding the fields `formatGPS` writes into bytes 5..13 gives back
`lat` and `lon`, so two positions of this domain that give the same bytes 5..13 are
equal. -/
theorem formatGPS_roundtrip (buffer : List Nat) (lat lon : Int) (hlen : buffer.length = 20)
    (hlat : -90000 ≤ lat ∧ lat ≤ 90000) (hlon : -180000 < lon ∧ lon < 180000) :
    decodeLatitude (formatGPS buffer lat lon) = lat
      ∧ decodeLongitude (formatGPS buffer lat lon) = lon
      ∧ ∀ (buffer' : List Nat) (lat' lon' : Int), buffer'.length = 20 →
          (-90000 ≤ lat' ∧ lat' ≤ 90000) → (-180000 < lon' ∧ lon' < 180000) →
          gpsFields (formatGPS buffer lat lon) = gpsFields (formatGPS buffer' lat' lon') →
          lat = lat' ∧ lon = lon' := by
  refine ⟨decodeLatitude_formatGPS buffer lat lon hlen hlat,
    decodeLongitude_formatGPS buffer lat lon hlen hlat hlon, ?_⟩
  intro buffer' lat' lon' hlen' hlat' hlon' hf
  obtain ⟨h1, h2⟩ := decode_congr _ _ hf
  rw [decodeLatitude_formatGPS buffer lat lon hlen hlat,
    decodeLatitude_formatGPS buffer' lat' lon' hlen' hlat'] at h1
  rw [decodeLongitude_formatGPS buffer lat lon hlen hlat hlon,
    decodeLongitude_formatGPS buffer' lat' lon' hlen' hlat' hlon'] at h2
  exact ⟨h1, h2⟩

/-- Witness of C2 at latitude 37.123 and longitude -5.987. -/
theorem formatGPS_roundtrip_witness :
    decodeLatitude (formatGPS (List.replicate 20 0x20) 37123 (-5987)) = 37123
      ∧ decodeLongitude (formatGPS (List.replicate 20 0x20) 37123 (-5987)) = -5987 :=
  ⟨(formatGPS_roundtrip (List.replicate 20 0x20) 37123 (-5987) (by decide) (by decide)
      (by decide)).1,
    (formatGPS_roundtrip (List.replicate 20 0x20) 37123 (-5987) (by decide) (by decide)
      (by decide)).2.1⟩

end APRSReader

namespace YSF2DMR

/-! ### The connect and disconnect blocks -/

theorem connectTail_unlink (findID : List Char → Nat) (now : Nat) (s : Gateway) (f : YSFIn)
    (id : Nat) (h1 : s.sendDisconnect = true) (h2 : s.m_dstid ≠ 9)
    (hid : findYSFID findID s.m_defsrcid (ysfSrcOf f.source) = some id) :
    connectTail findID now s f
      = some ({ s with m_dstid := 4000, m_ysfSrc := ysfSrcOf f.source, m_srcid := id,
                       unlinkReceived := false,
                       TG_connect_state := TG_STATUS.WAITING_UNLINK, TGChange := now },
          SendDummyDMR id 4000 FLCO.FLCO_GROUP) := by
  unfold connectTail
  rw [if_pos ⟨h1, h2⟩]
  simp only [hid]

theorem disconnectCase_ok (findID : List Char → Nat) (now : Nat) (s : Gateway) (f : YSFIn)
    (id : Nat) (hid : findYSFID findID s.m_defsrcid (ysfSrcOf f.source) = some id) :
    disconnectCase findID now s f
      = some ({ s with m_dstid := 4000, m_next_dstid := 9, m_ysfSrc := ysfSrcOf f.source,
                       m_srcid := id, TG_connect_state := TG_STATUS.WAITING_UNLINK,
                       TGChange := now },
          SendDummyDMR id 4000 FLCO.FLCO_GROUP) := by
  unfold disconnectCase
  simp only [hid]

/-! ### Requests for destination 4000 -/

/-- Claim C3, the code at the failing input. A Wires-X connect request for 4000 leaves the
control state and the current destination alone but stores 4000 as pending
destination and sets the call type to group; a DTMF request for 4000 stores 4000 as
pending destination. When such a request arrives while the unlink confirmation of a
switch to talk group 5 is awaited, the machine commits 4000 as current destination,
acknowledges 4000 and sends the push-to-talk call to 4000. -/
theorem connect_4000_overwrites_pending :
    wiresXCase noID 1100 parrotSession (wxConnect callsign 4000)
        = some ({ parrotSession with m_next_dstid := 4000, dmrflco := FLCO.FLCO_GROUP },
            [], true)
      ∧ dtmfCase noID 1100 parrotSession (dtmfConnect callsign 4000)
        = some ({ parrotSession with m_next_dstid := 4000 }, [], true)
      ∧ (runLoop noID (startup true false 91 2140001 0) overwriteInputs).map
          (fun r => (r.1.TG_connect_state, r.1.m_dstid, r.1.m_next_dstid, r.2))
        = some (TG_STATUS.NONE, 4000, 4000,
            SendDummyDMR 2140001 4000 FLCO.FLCO_GROUP
              ++ [Out.watchdogStart, Out.putDMREOT, Out.dmrReset, Out.watchdogStop]
              ++ [Out.sendConnectReply 4000]
              ++ SendDummyDMR 2140001 4000 FLCO.FLCO_GROUP) := by
  refine ⟨by decide, by decide, by decide⟩

/-! ### A connect request without disconnect-on-switch -/

/-- Support for C4: from an idle state in which the unlink call is not due, with a
stored source callsign that gives a lookup key, a Wires-X connect request for
`X ≠ 4000` followed by two iterations more than 600 ms apart commits `X`, passes
through `SEND_REPLY` and `SEND_PTT`, ends in `NONE` and writes one acknowledgement for
`X` and one call to `X`, and nothing else. -/
theorem connect_idle_run (findID : List Char → Nat) (s : Gateway) (src : List Char)
    (X id t0 t1 t2 : Nat) (hX : X ≠ 4000)
    (hdirect : ¬ (s.sendDisconnect = true ∧ s.m_dstid ≠ 9))
    (hidle : s.TG_connect_state = TG_STATUS.NONE)
    (hid : findYSFID findID s.m_defsrcid s.m_ysfSrc = some id)
    (h1 : t1 - t0 > 600) (h2 : t2 - t1 > 600) :
    (runLoop findID s [{ quiet t0 with ysfIn := [wxConnect src X] }]).map
        (fun r => (r.1.TG_connect_state, r.1.m_dstid, r.2))
      = some (TG_STATUS.SEND_REPLY, X, [])
    ∧ (runLoop findID s [{ quiet t0 with ysfIn := [wxConnect src X] }, quiet t1]).map
        (fun r => (r.1.TG_connect_state, r.1.m_dstid, r.2))
      = some (TG_STATUS.SEND_PTT, X, [Out.sendConnectReply X])
    ∧ (runLoop findID s [{ quiet t0 with ysfIn := [wxConnect src X] }, quiet t1,
          quiet t2]).map (fun r => (r.1.TG_connect_state, r.1.m_dstid, r.2))
      = some (TG_STATUS.NONE, X,
          Out.sendConnectReply X :: SendDummyDMR id X FLCO.FLCO_GROUP) := by
  have hd : ¬ ((s.sendDisconnect = true) ∧ ¬ s.m_dstid = 9) := hdirect
  simp [runLoop, loopBody, advanceTG, tgSwitch, tgTimeout, elapsed, ysfLoop, ysfFrame,
    wiresXCase, dtmfCase, connectTail, quiet, wxConnect, plainFrame, dmrLoop,
    hidle, hX, hd, hid, h1, h2]

/-- Support for C4: the same run for a DTMF connect request; the frame that carries
the last digit is a voice frame and is also handed to the conversion pipeline. -/
theorem connect_idle_run_dtmf (findID : List Char → Nat) (s : Gateway) (src : List Char)
    (X id t0 t1 t2 : Nat) (hX : X ≠ 4000)
    (hdirect : ¬ (s.sendDisconnect = true ∧ s.m_dstid ≠ 9))
    (hidle : s.TG_connect_state = TG_STATUS.NONE)
    (hid : findYSFID findID s.m_defsrcid s.m_ysfSrc = some id)
    (h1 : t1 - t0 > 600) (h2 : t2 - t1 > 600) :
    (runLoop findID s [{ quiet t0 with ysfIn := [dtmfConnect src X] }, quiet t1,
          quiet t2]).map (fun r => (r.1.TG_connect_state, r.1.m_dstid, r.2))
      = some (TG_STATUS.NONE, X,
          Out.putYSF :: Out.sendConnectReply X :: SendDummyDMR id X FLCO.FLCO_GROUP) := by
  have hd : ¬ ((s.sendDisconnect = true) ∧ ¬ s.m_dstid = 9) := hdirect
  simp [runLoop, loopBody, advanceTG, tgSwitch, tgTimeout, elapsed, ysfLoop, ysfFrame,
    wiresXCase, dtmfCase, connectTail, quiet, dtmfConnect, plainFrame, dmrLoop,
    hidle, hX, hd, hid, h1, h2]

/-- Claim C4, the code at the failing input. At the entry of the loop the stored source
callsign is the empty string. With disconnect-on-switch disabled a Wires-X connect
request for talk group 5 commits 5 and the acknowledgement for 5 is sent 700 ms
later; at the next iteration after 700 ms more `findYSFID` is called on the empty
string, `substr` throws and the loop ends without any push-to-talk call. -/
theorem connect_from_startup_aborts :
    (runLoop noID (startup false false 9 2140001 0) connectInputs).map
        (fun r => (r.1.TG_connect_state, r.1.m_dstid, r.1.m_ysfSrc, r.2))
      = some (TG_STATUS.SEND_PTT, 5, [], [Out.sendConnectReply 5])
    ∧ runLoop noID (startup false false 9 2140001 0) (connectInputs ++ [quiet 2400]) = none := by
  refine ⟨by decide, by decide⟩

/-! ### A connect request with disconnect-on-switch -/

theorem hasReply_append (a b : List Out) : hasReply (a ++ b) = (hasReply a || hasReply b) := by
  induction a with
  | nil => simp [hasReply]
  | cons x a ih => cases x <;> simp [hasReply, ih]

theorem advanceTG_awaiting (findID : List Char → Nat) (now : Nat) (s : Gateway)
    (h : AwaitingUnlink s) :
    ∃ s', advanceTG findID now s = some (s', []) ∧ AwaitingUnlink s' := by
  obtain ⟨h1, h2, h3, h4 | h4⟩ := h
  · by_cases ht : now - s.TGChange > 12000
    · exact ⟨{ s with TG_connect_state := TG_STATUS.NONE },
        by simp [advanceTG, tgSwitch, tgTimeout, elapsed, h3, h4, ht], h1, h2, h3, Or.inr rfl⟩
    · exact ⟨s, by simp [advanceTG, tgSwitch, tgTimeout, elapsed, h3, h4, ht], h1, h2, h3, Or.inl h4⟩
  · exact ⟨s, by simp [advanceTG, tgSwitch, tgTimeout, elapsed, h4], h1, h2, h3, Or.inr h4⟩

theorem connectTail_awaiting (findID : List Char → Nat) (now : Nat) (s : Gateway) (f : YSFIn)
    (h1 : s.sendDisconnect = true) (h2 : s.m_dstid = 4000) (r : Gateway × List Out)
    (hr : connectTail findID now s f = some r) :
    AwaitingUnlink r.1 ∧ hasReply r.2 = false := by
  unfold connectTail at hr
  rw [if_pos ⟨h1, by omega⟩] at hr
  cases hid : findYSFID findID s.m_defsrcid (ysfSrcOf f.source) with
  | none => simp [hid] at hr
  | some id =>
    simp only [hid, Option.some.injEq] at hr
    subst hr
    exact ⟨⟨h1, rfl, rfl, Or.inl rfl⟩, rfl⟩

theorem disconnectCase_awaiting (findID : List Char → Nat) (now : Nat) (s : Gateway)
    (f : YSFIn) (h : AwaitingUnlink s) (r : Gateway × List Out)
    (hr : disconnectCase findID now s f = some r) :
    AwaitingUnlink r.1 ∧ hasReply r.2 = false := by
  unfold disconnectCase at hr
  cases hid : findYSFID findID s.m_defsrcid (ysfSrcOf f.source) with
  | none => simp [hid] at hr
  | some id =>
    simp only [hid, Option.some.injEq] at hr
    subst hr
    exact ⟨⟨h.1, rfl, h.2.2.1, Or.inl rfl⟩, rfl⟩

theorem wiresXCase_awaiting (findID : List Char → Nat) (now : Nat) (s : Gateway) (f : YSFIn)
    (h : AwaitingUnlink s) (r : Gateway × List Out × Bool)
    (hr : wiresXCase findID now s f = some r) :
    AwaitingUnlink r.1 ∧ hasReply r.2.1 = false := by
  unfold wiresXCase at hr
  cases hwx : f.wx with
  | WXS_CONNECT =>
    simp only [hwx] at hr
    split at hr
    · simp only [Option.some.injEq] at hr
      subst hr
      exact ⟨h, rfl⟩
    · split at hr
      · simp at hr
      · next s' out hc =>
        simp only [Option.some.injEq] at hr
        subst hr
        refine connectTail_awaiting findID now _ f ?_ ?_ (s', out) hc
        · exact h.1
        · exact h.2.1
  | WXS_DX =>
    simp only [hwx, Option.some.injEq] at hr
    subst hr
    exact ⟨h, rfl⟩
  | WXS_DISCONNECT =>
    simp only [hwx] at hr
    split at hr
    · simp at hr
    · next s' out hc =>
      simp only [Option.some.injEq] at hr
      subst hr
      exact disconnectCase_awaiting findID now s f h (s', out) hc
  | WXS_NONE =>
    simp only [hwx] at hr
    split at hr
    · split at hr
      · split at hr
        · split at hr
          · split at hr
            · simp at hr
            · simp only [Option.some.injEq] at hr
              subst hr
              exact ⟨h, rfl⟩
          · simp only [Option.some.injEq] at hr
            subst hr
            exact ⟨h, rfl⟩
        · simp only [Option.some.injEq] at hr
          subst hr
          exact ⟨h, rfl⟩
        · simp only [Option.some.injEq] at hr
          subst hr
          exact ⟨h, rfl⟩
        · simp only [Option.some.injEq] at hr
          subst hr
          exact ⟨h, rfl⟩
      · simp only [Option.some.injEq] at hr
        subst hr
        exact ⟨h, rfl⟩
    · simp only [Option.some.injEq] at hr
      subst hr
      exact ⟨h, rfl⟩

theorem dtmfCase_awaiting (findID : List Char → Nat) (now : Nat) (s : Gateway) (f : YSFIn)
    (h : AwaitingUnlink s) (r : Gateway × List Out × Bool)
    (hr : dtmfCase findID now s f = some r) :
    AwaitingUnlink r.1 ∧ hasReply r.2.1 = false := by
  unfold dtmfCase at hr
  cases hst : (if f.isVDMode2 = true then f.dtmf else WX_STATUS.WXS_NONE) with
  | WXS_CONNECT =>
    simp only [hst] at hr
    split at hr
    · simp only [Option.some.injEq] at hr
      subst hr
      exact ⟨h, rfl⟩
    · split at hr
      · simp at hr
      · next s' out hc =>
        simp only [Option.some.injEq] at hr
        subst hr
        refine connectTail_awaiting findID now _ f ?_ ?_ (s', out) hc
        · exact h.1
        · exact h.2.1
  | WXS_DISCONNECT =>
    simp only [hst] at hr
    split at hr
    · simp at hr
    · next s' out hc =>
      simp only [Option.some.injEq] at hr
      subst hr
      exact disconnectCase_awaiting findID now s f h (s', out) hc
  | WXS_DX =>
    simp only [hst, Option.some.injEq] at hr
    subst hr
    exact ⟨h, rfl⟩
  | WXS_NONE =>
    simp only [hst, Option.some.injEq] at hr
    subst hr
    exact ⟨h, rfl⟩

theorem ysfFrame_awaiting (findID : List Char → Nat) (now : Nat) (s : Gateway) (f : YSFIn)
    (h : AwaitingUnlink s) (r : Gateway × List Out)
    (hr : ysfFrame findID now s f = some r) :
    AwaitingUnlink r.1 ∧ hasReply r.2 = false := by
  unfold ysfFrame at hr
  split at hr
  · split at hr
    · simp at hr
    · next s1 out1 h1 =>
      simp only [Option.some.injEq] at hr
      subst hr
      exact wiresXCase_awaiting findID now s f h _ h1
    · next s1 out1 h1 =>
      have hw := wiresXCase_awaiting findID now s f h _ h1
      split at hr
      · simp at hr
      · next s2 out2 c2 h2 =>
        have hd := dtmfCase_awaiting findID now s1 f hw.1 _ h2
        simp only [Option.some.injEq] at hr
        subst hr
        exact ⟨hd.1, by simp [hasReply_append, hw.2, hd.2]⟩
  · simp only [Option.some.injEq] at hr
    subst hr
    exact ⟨h, rfl⟩

theorem ysfLoop_awaiting (findID : List Char → Nat) (now : Nat) (fs : List YSFIn) :
    ∀ (s : Gateway), AwaitingUnlink s → ∀ (r : Gateway × List Out),
      ysfLoop findID now s fs = some r → AwaitingUnlink r.1 ∧ hasReply r.2 = false := by
  induction fs with
  | nil =>
    intro s h r hr
    simp only [ysfLoop, Option.some.injEq] at hr
    subst hr
    exact ⟨h, rfl⟩
  | cons f fs ih =>
    intro s h r hr
    unfold ysfLoop at hr
    split at hr
    · simp at hr
    · next s1 out1 h1 =>
      have hf := ysfFrame_awaiting findID now s f h _ h1
      split at hr
      · simp at hr
      · next s2 out2 h2 =>
        have hl := ih s1 hf.1 _ h2
        simp only [Option.some.injEq] at hr
        subst hr
        exact ⟨hl.1, by simp [hasReply_append, hf.2, hl.2]⟩

theorem fillLoop_hasReply (s : Gateway) :
    ∀ (fill n_dmr dmr_cnt : Nat), hasReply (fillLoop s fill n_dmr dmr_cnt).1 = false := by
  intro fill
  induction fill with
  | zero => intro n c; rfl
  | succ fill ih => intro n c; simp [fillLoop, hasReply, ih]

theorem dmrOutput_hasReply (s : Gateway) (tag : TAG) :
    hasReply (dmrOutput s tag).2 = false := by
  cases tag with
  | TAG_HEADER => rfl
  | TAG_DATA => rfl
  | TAG_EOT =>
    unfold dmrOutput
    dsimp only
    rw [hasReply_append, apply_ite Prod.fst, apply_ite hasReply, fillLoop_hasReply]
    have e : hasReply (([] : List Out), nDMR s.dmr_cnt, s.dmr_cnt).1 = false := rfl
    rw [e, ite_self]
    rfl
  | TAG_NODATA => rfl

theorem dmrOutput_awaiting (s : Gateway) (tag : TAG) (h : AwaitingUnlink s) :
    AwaitingUnlink (dmrOutput s tag).1 ∧ hasReply (dmrOutput s tag).2 = false := by
  refine ⟨?_, dmrOutput_hasReply s tag⟩
  unfold AwaitingUnlink at *
  cases tag <;> (unfold dmrOutput; dsimp only) <;> exact h

theorem ysfOutput_awaiting (s : Gateway) (tag : TAG) (h : AwaitingUnlink s) :
    AwaitingUnlink (ysfOutput s tag).1 ∧ hasReply (ysfOutput s tag).2 = false := by
  unfold AwaitingUnlink at *
  cases tag <;> simp only [ysfOutput, hasReply] <;> exact ⟨h, trivial⟩

theorem dmrFrame_sendDisconnect (ms : Nat) (s : Gateway) (d : DMRIn) :
    (dmrFrame ms s d).1.sendDisconnect = s.sendDisconnect := by
  simp only [dmrFrame, apply_ite Prod.fst, apply_ite Gateway.sendDisconnect, ite_self]

theorem dmrFrame_dstid (ms : Nat) (s : Gateway) (d : DMRIn) :
    (dmrFrame ms s d).1.m_dstid = s.m_dstid := by
  simp only [dmrFrame, apply_ite Prod.fst, apply_ite Gateway.m_dstid, ite_self]

theorem dmrFrame_state (ms : Nat) (s : Gateway) (d : DMRIn) :
    (dmrFrame ms s d).1.TG_connect_state = s.TG_connect_state := by
  simp only [dmrFrame, apply_ite Prod.fst, apply_ite Gateway.TG_connect_state, ite_self]

theorem dmrFrame_hasReply (ms : Nat) (s : Gateway) (d : DMRIn) :
    hasReply (dmrFrame ms s d).2 = false := by
  simp only [dmrFrame, apply_ite Prod.snd, apply_ite Prod.fst, apply_ite hasReply,
    hasReply_append, hasReply, ite_self, Bool.or_false]

theorem dmrFrame_unlinkReceived (ms : Nat) (s : Gateway) (d : DMRIn) :
    (dmrFrame ms s d).1.unlinkReceived
      = (if isUnlinkTerminator d then true else s.unlinkReceived) := by
  simp only [dmrFrame, apply_ite Prod.fst, apply_ite Gateway.unlinkReceived, ite_self,
    isUnlinkTerminator]
  by_cases hm : d.missing = true <;>
    by_cases hdt : d.dataType = DataType.DT_TERMINATOR_WITH_LC <;>
    by_cases hs : d.srcId = 4000 <;> simp [hm, hdt, hs]

theorem dmrFrame_awaiting (ms : Nat) (s : Gateway) (d : DMRIn) (h : AwaitingUnlink s)
    (hd : isUnlinkTerminator d = false) :
    AwaitingUnlink (dmrFrame ms s d).1 ∧ hasReply (dmrFrame ms s d).2 = false := by
  unfold AwaitingUnlink at *
  rw [dmrFrame_sendDisconnect, dmrFrame_dstid, dmrFrame_state, dmrFrame_unlinkReceived, hd]
  exact ⟨h, dmrFrame_hasReply ms s d⟩

theorem dmrLoop_awaiting (ms : Nat) (ds : List DMRIn) :
    ∀ (s : Gateway), AwaitingUnlink s → (∀ d ∈ ds, isUnlinkTerminator d = false) →
      AwaitingUnlink (dmrLoop ms s ds).1 ∧ hasReply (dmrLoop ms s ds).2 = false := by
  induction ds with
  | nil => intro s h _; exact ⟨h, rfl⟩
  | cons d ds ih =>
    intro s h hd
    have h1 := dmrFrame_awaiting ms s d h (hd d (List.mem_cons_self d ds))
    have h2 := ih (dmrFrame ms s d).1 h1.1 (fun x hx => hd x (List.mem_cons_of_mem d hx))
    unfold dmrLoop
    dsimp only
    exact ⟨h2.1, by rw [hasReply_append, h1.2, h2.2]; rfl⟩

theorem loopBody_awaiting (findID : List Char → Nat) (s : Gateway) (i : Inputs)
    (h : AwaitingUnlink s) (hd : ∀ d ∈ i.dmrIn, isUnlinkTerminator d = false)
    (r : Gateway × List Out) (hr : loopBody findID s i = some r) :
    AwaitingUnlink r.1 ∧ hasReply r.2 = false := by
  unfold loopBody at hr
  obtain ⟨s1, h1, ha1⟩ := advanceTG_awaiting findID i.now s h
  rw [h1] at hr
  dsimp only at hr
  split at hr
  · simp at hr
  · next s2 out2 h2 =>
    have hy := ysfLoop_awaiting findID i.now i.ysfIn s1 ha1 _ h2
    have h3 : AwaitingUnlink
        (match i.dmrTick with
          | some tag => dmrOutput s2 tag
          | none => (s2, [])).1
        ∧ hasReply (match i.dmrTick with
          | some tag => dmrOutput s2 tag
          | none => (s2, [])).2 = false := by
      cases i.dmrTick with
      | none => exact ⟨hy.1, rfl⟩
      | some tag => exact dmrOutput_awaiting s2 tag hy.1
    generalize (match i.dmrTick with
          | some tag => dmrOutput s2 tag
          | none => (s2, [])) = r3 at hr h3
    have h4 := dmrLoop_awaiting i.ms i.dmrIn r3.1 h3.1 hd
    generalize dmrLoop i.ms r3.1 i.dmrIn = r4 at hr h4
    have h5 : AwaitingUnlink
        (match i.ysfTick with
          | some tag => ysfOutput r4.1 tag
          | none => (r4.1, [])).1
        ∧ hasReply (match i.ysfTick with
          | some tag => ysfOutput r4.1 tag
          | none => (r4.1, [])).2 = false := by
      cases i.ysfTick with
      | none => exact ⟨h4.1, rfl⟩
      | some tag => exact ysfOutput_awaiting r4.1 tag h4.1
    generalize (match i.ysfTick with
          | some tag => ysfOutput r4.1 tag
          | none => (r4.1, [])) = r5 at hr h5
    simp only [Option.some.injEq] at hr
    subst hr
    refine ⟨h5.1, ?_⟩
    simp only [hasReply_append, hy.2, h3.2, h4.2, h5.2, hasReply, Bool.or_false]

theorem runLoop_awaiting (findID : List Char → Nat) (is : List Inputs) :
    ∀ (s : Gateway), AwaitingUnlink s →
      (∀ i ∈ is, ∀ d ∈ i.dmrIn, isUnlinkTerminator d = false) →
      ∀ (r : Gateway × List Out), runLoop findID s is = some r →
        AwaitingUnlink r.1 ∧ hasReply r.2 = false := by
  induction is with
  | nil =>
    intro s h _ r hr
    simp only [runLoop, Option.some.injEq] at hr
    subst hr
    exact ⟨h, rfl⟩
  | cons i is ih =>
    intro s h hd r hr
    unfold runLoop at hr
    split at hr
    · simp at hr
    · next s1 out1 h1 =>
      have hb := loopBody_awaiting findID s i h (hd i (List.mem_cons_self i is)) _ h1
      split at hr
      · simp at hr
      · next s2 out2 h2 =>
        have hl := ih s1 hb.1 (fun x hx => hd x (List.mem_cons_of_mem i hx)) _ h2
        simp only [Option.some.injEq] at hr
        subst hr
        exact ⟨hl.1, by rw [hasReply_append, hb.2, hl.2]; rfl⟩

/-- Support for C5: with disconnect-on-switch enabled and a current destination other
than 9, a connect request for `X ≠ 4000` from either signalling source, sent with a
callsign that gives a lookup key, writes the call to 4000 and nothing else and enters
`WAITING_UNLINK`; after it, whatever is read, as long as no terminator from 4000 that
is not missing is among the records read from the DMR network, the control state is
not `SEND_REPLY` and no connect acknowledgement has been sent. -/
theorem connect_switch_waits (findID : List Char → Nat) (now : Nat) (s : Gateway) (f : YSFIn)
    (X id : Nat) (hX : X ≠ 4000) (h1 : s.sendDisconnect = true) (h2 : s.m_dstid ≠ 9)
    (hid : findYSFID findID s.m_defsrcid (ysfSrcOf f.source) = some id) :
    (f.wx = WX_STATUS.WXS_CONNECT → f.wxReflector = X →
      ∃ s', wiresXCase findID now s f = some (s', SendDummyDMR id 4000 FLCO.FLCO_GROUP, false)
        ∧ s'.TG_connect_state = TG_STATUS.WAITING_UNLINK ∧ AwaitingUnlink s')
    ∧ (f.isVDMode2 = true → f.dtmf = WX_STATUS.WXS_CONNECT → f.dtmfReflector = X →
      ∃ s', dtmfCase findID now s f = some (s', SendDummyDMR id 4000 FLCO.FLCO_GROUP, false)
        ∧ s'.TG_connect_state = TG_STATUS.WAITING_UNLINK ∧ AwaitingUnlink s')
    ∧ (∀ (s' : Gateway) (is : List Inputs) (r : Gateway × List Out), AwaitingUnlink s' →
        (∀ i ∈ is, ∀ d ∈ i.dmrIn, isUnlinkTerminator d = false) →
        runLoop findID s' is = some r →
        r.1.TG_connect_state ≠ TG_STATUS.SEND_REPLY ∧ hasReply r.2 = false) := by
  refine ⟨?_, ?_, ?_⟩
  · intro hwx hr
    unfold wiresXCase
    simp only [hwx, hr, hX, if_false]
    have e := connectTail_unlink findID now
      { s with m_next_dstid := X,
               dmrflco := if X = 9990 then FLCO.FLCO_USER_USER else FLCO.FLCO_GROUP }
      f id h1 h2 hid
    rw [e]
    exact ⟨_, rfl, rfl, h1, rfl, rfl, Or.inl rfl⟩
  · intro hvd hdt hr
    unfold dtmfCase
    simp only [hvd, hdt, hr, hX, if_true, if_false]
    have e := connectTail_unlink findID now
      { s with m_next_dstid := X,
               dmrflco := if X = 9990 then FLCO.FLCO_USER_USER else FLCO.FLCO_GROUP }
      f id h1 h2 hid
    rw [e]
    exact ⟨_, rfl, rfl, h1, rfl, rfl, Or.inl rfl⟩
  · intro s' is r ha hd hr
    have h := runLoop_awaiting findID is s' ha hd r hr
    refine ⟨?_, h.2⟩
    rcases h.1.2.2.2 with hw | hw <;> rw [hw] <;> decide

/-- Claim C5, the code at the failing input. With disconnect-on-switch enabled and current
destination 91, a connect request for talk group 5 whose source callsign field is
blank makes `findYSFID` throw before `SendDummyDMR` is reached, on the Wires-X path
and on the DTMF path: no call to 4000 is written and the loop ends. -/
theorem connect_blank_source_aborts :
    wiresXCase noID 1000 (startup true false 91 2140001 0) (wxConnect blankCallsign 5) = none
    ∧ dtmfCase noID 1000 (startup true false 91 2140001 0) (dtmfConnect blankCallsign 5) = none
    ∧ runLoop noID (startup true false 91 2140001 0)
        [{ quiet 1000 with ysfIn := [wxConnect blankCallsign 5] }] = none := by
  refine ⟨by decide, by decide, by decide⟩

/-! ### The unlink confirmation -/

/-- Claim C6, the code at the failing input. A terminator from 4000 is received while the
machine is idle; one second later an explicit disconnect is handled, which enters
`WAITING_UNLINK` and leaves `unlinkReceived` set; at the next iteration the machine
goes to `SEND_REPLY` although nothing has been read from the DMR network since
`WAITING_UNLINK` was entered. -/
theorem disconnect_uses_stale_unlink :
    (runLoop noID (startup true false 91 2140001 0) staleUnlinkInputs).map
        (fun r => (r.1.TG_connect_state, r.1.unlinkReceived, r.1.m_dstid))
      = some (TG_STATUS.WAITING_UNLINK, true, 4000)
    ∧ (runLoop noID (startup true false 91 2140001 0) (staleUnlinkInputs ++ [quiet 2005])).map
        (fun r => (r.1.TG_connect_state, r.1.unlinkReceived, r.1.m_dstid))
      = some (TG_STATUS.SEND_REPLY, false, 9) := by
  refine ⟨by decide, by decide⟩

/-! ### The lookup key -/

/-- The result of `findYSFID` in terms of the lookup key. -/
theorem findYSFID_eq (findID : List Char → Nat) (m_defsrcid : Nat) (cs : List Char) :
    findYSFID findID m_defsrcid cs
      = (cstrim cs).map (fun key => if findID key = 0 then m_defsrcid else findID key) := by
  unfold findYSFID cstrim
  dsimp only
  split <;> rename_i h
  · rw [h]; rfl
  · rw [h]
    simp only [Option.map_some']
    split_ifs <;> rfl

theorem findFirst_spec (p : Char → Bool) (cs : List Char) :
    ∀ i : Nat, (findFirst p cs i = -1 ∧ ∀ c ∈ cs, p c = false)
      ∨ ((i : Int) ≤ findFirst p cs i ∧ findFirst p cs i < (i : Int) + cs.length
          ∧ ∃ c ∈ cs, p c = true) := by
  induction cs with
  | nil => intro i; left; exact ⟨rfl, fun c hc => absurd hc (List.not_mem_nil c)⟩
  | cons c cs ih =>
    intro i
    unfold findFirst
    by_cases hp : p c = true
    · right
      rw [if_pos hp]
      refine ⟨le_refl _, ?_, c, List.mem_cons_self _ _, hp⟩
      simp only [List.length_cons, Nat.cast_add, Nat.cast_one]
      omega
    · rw [if_neg hp]
      rcases ih (i + 1) with ⟨h1, h2⟩ | ⟨h1, h2, d, hd, hpd⟩
      · left
        refine ⟨h1, ?_⟩
        intro x hx
        rcases List.mem_cons.mp hx with rfl | hx
        · simpa using hp
        · exact h2 x hx
      · right
        refine ⟨?_, ?_, d, List.mem_cons_of_mem _ hd, hpd⟩
        · push_cast at h1; omega
        · simp only [List.length_cons, Nat.cast_add, Nat.cast_one]
          push_cast at h2; omega

theorem findLast_none (p : Char → Bool) (cs : List Char) (h : ∀ c ∈ cs, p c = false) :
    ∀ i : Nat, findLast p cs i = -1 := by
  induction cs with
  | nil => intro i; rfl
  | cons c cs ih =>
    intro i
    unfold findLast
    dsimp only
    rw [if_pos (ih (fun x hx => h x (List.mem_cons_of_mem _ hx)) (i + 1)),
      if_neg (by simp [h c (List.mem_cons_self _ _)])]

/-- Support for C7, C16 and C18: for a callsign shorter than `2 ^ 31` characters
`findYSFID` gets a lookup key exactly when the callsign holds a character other than a
blank. -/
theorem cstrim_isSome_iff (cs : List Char) (hlen : cs.length < 2147483648) :
    (cstrim cs).isSome = true ↔ ∃ c ∈ cs, c ≠ ' ' := by
  have hf := findFirst_spec (fun x => x != ' ') cs 0
  have hsub : ∀ len : Int, 0 ≤ find_first_not_of cs ' ' →
      find_first_not_of cs ' ' < cs.length →
      (substr cs (find_first_not_of cs ' ') len).isSome = true := by
    intro len h0 h1
    unfold substr toSize
    rw [if_neg]
    · rfl
    · omega
  constructor
  · intro h
    rcases hf with ⟨h1, h2⟩ | ⟨_, _, c, hc, hpc⟩
    · exfalso
      have hb : ∀ x ∈ cs, x = ' ' := fun x hx => by simpa using h2 x hx
      have hm1 : find_last_of cs '-' = -1 :=
        findLast_none _ cs (fun x hx => by rw [hb x hx]; decide) 0
      have hm2 : find_last_of cs '/' = -1 :=
        findLast_none _ cs (fun x hx => by rw [hb x hx]; decide) 0
      have hfirst : find_first_not_of cs ' ' = -1 := h1
      unfold cstrim at h
      dsimp only at h
      rw [if_pos ⟨hm1, hm2⟩, hfirst] at h
      unfold substr toSize at h
      rw [if_pos (by omega)] at h
      exact absurd h (by decide)
    · exact ⟨c, hc, by simpa using hpc⟩
  · rintro ⟨c, hc, hne⟩
    rcases hf with ⟨h1, h2⟩ | ⟨h1, h2, _⟩
    · have := h2 c hc
      simp at this
      exact absurd this hne
    · have h0 : 0 ≤ find_first_not_of cs ' ' := by
        unfold find_first_not_of; simpa using h1
      have h3 : find_first_not_of cs ' ' < cs.length := by
        unfold find_first_not_of; simpa using h2
      unfold cstrim
      dsimp only
      split_ifs
      · exact hsub _ h0 h3
      · exact hsub _ h0 h3
      · exact hsub _ h0 h3
      · rfl

/-- A callsign shorter than `2 ^ 31` characters that holds a character other than a
blank is given an ID by `findYSFID`. -/
theorem findYSFID_isSome (findID : List Char → Nat) (m_defsrcid : Nat) (cs : List Char)
    (hlen : cs.length < 2147483648) (h : ∃ c ∈ cs, c ≠ ' ') :
    ∃ id, findYSFID findID m_defsrcid cs = some id := by
  have hk := (cstrim_isSome_iff cs hlen).mpr h
  obtain ⟨key, hkey⟩ := Option.isSome_iff_exists.mp hk
  exact ⟨_, by rw [findYSFID_eq, hkey]; rfl⟩

/-! ### The timeout -/

/-- Claim C7, counterexample. In `SEND_REPLY` with 20,000 ms elapsed the state after the
advance is `SEND_PTT`, not `NONE`; in `WAITING_UNLINK` with a confirmation recorded and
20,000 ms elapsed it is `SEND_REPLY`; in `WAITING_UNLINK` with exactly 12,000 ms elapsed
it stays `WAITING_UNLINK`. -/
theorem timeout_not_unconditional :
    replyPending.TG_connect_state = TG_STATUS.SEND_REPLY
    ∧ elapsed 20000 replyPending.TGChange ≥ 12000
    ∧ (advanceTG noID 20000 replyPending).map (fun r => r.1.TG_connect_state)
        = some TG_STATUS.SEND_PTT
    ∧ (advanceTG noID 20000 { unlinkPending with unlinkReceived := true }).map
        (fun r => r.1.TG_connect_state) = some TG_STATUS.SEND_REPLY
    ∧ (advanceTG noID 12000 unlinkPending).map (fun r => r.1.TG_connect_state)
        = some TG_STATUS.WAITING_UNLINK := by
  refine ⟨by decide, by decide, by decide, by decide, by decide⟩

/-- Claim C7, amended. When more than 12,000 ms have elapsed since the stopwatch was
started: from `WAITING_UNLINK` without a recorded confirmation the advance ends in
`NONE` and writes nothing; from `SEND_PTT` with a stored callsign that holds a
character other than a blank, `findYSFID` gives an ID, the push-to-talk call is
written and the advance ends in `NONE`; from `WAITING_UNLINK` with a recorded
confirmation it ends in `SEND_REPLY` and from `SEND_REPLY` in `SEND_PTT`, because the
transition of the state runs first and restarts the stopwatch. -/
theorem advanceTG_timeout (findID : List Char → Nat) (now : Nat) (s : Gateway)
    (h : elapsed now s.TGChange > 12000) :
    (s.TG_connect_state = TG_STATUS.WAITING_UNLINK → s.unlinkReceived = false →
      advanceTG findID now s = some ({ s with TG_connect_state := TG_STATUS.NONE }, []))
    ∧ (s.TG_connect_state = TG_STATUS.SEND_PTT →
        ∀ id, findYSFID findID s.m_defsrcid s.m_ysfSrc = some id →
        advanceTG findID now s
          = some ({ s with TGChange := now, TG_connect_state := TG_STATUS.NONE, m_srcid := id },
              SendDummyDMR id s.m_next_dstid FLCO.FLCO_GROUP))
    ∧ (s.TG_connect_state = TG_STATUS.WAITING_UNLINK → s.unlinkReceived = true →
        advanceTG findID now s
          = some ({ s with TGChange := now, TG_connect_state := TG_STATUS.SEND_REPLY,
                           m_dstid := s.m_next_dstid, unlinkReceived := false }, []))
    ∧ (s.TG_connect_state = TG_STATUS.SEND_REPLY →
        advanceTG findID now s
          = some ({ s with TGChange := now, TG_connect_state := TG_STATUS.SEND_PTT },
              [Out.sendConnectReply s.m_dstid]))
    ∧ (s.TG_connect_state = TG_STATUS.SEND_PTT → s.m_ysfSrc.length < 2147483648 →
        (∃ c ∈ s.m_ysfSrc, c ≠ ' ') →
        ∃ id, findYSFID findID s.m_defsrcid s.m_ysfSrc = some id
          ∧ advanceTG findID now s
            = some ({ s with TGChange := now, TG_connect_state := TG_STATUS.NONE,
                             m_srcid := id },
                SendDummyDMR id s.m_next_dstid FLCO.FLCO_GROUP)) := by
  unfold elapsed at h
  have h600 : now - s.TGChange > 600 := by omega
  have hnn : ¬ (now - now > 12000) := by omega
  have hptt : s.TG_connect_state = TG_STATUS.SEND_PTT →
      ∀ id, findYSFID findID s.m_defsrcid s.m_ysfSrc = some id →
      advanceTG findID now s
        = some ({ s with TGChange := now, TG_connect_state := TG_STATUS.NONE, m_srcid := id },
            SendDummyDMR id s.m_next_dstid FLCO.FLCO_GROUP) := by
    intro hs id hid
    simp [advanceTG, tgSwitch, tgTimeout, elapsed, hs, hid, h600]
  refine ⟨?_, hptt, ?_, ?_, ?_⟩
  · intro hs hu
    simp [advanceTG, tgSwitch, tgTimeout, elapsed, hs, hu, h]
  · intro hs hu
    simp [advanceTG, tgSwitch, tgTimeout, elapsed, hs, hu]
  · intro hs
    simp [advanceTG, tgSwitch, tgTimeout, elapsed, hs, h600]
  · intro hs hlen hc
    obtain ⟨id, hid⟩ := findYSFID_isSome findID s.m_defsrcid s.m_ysfSrc hlen hc
    exact ⟨id, hid, hptt hs id hid⟩

/-- Witness of the amended C7, one advance at clock reading 12,001 for each case, the
stopwatch started at 0: `WAITING_UNLINK` without and with a confirmation, `SEND_REPLY`,
and `SEND_PTT` with the stored callsign `EA7EE`. -/
theorem advanceTG_timeout_witness :
    elapsed 12001 unlinkPending.TGChange > 12000
    ∧ advanceTG noID 12001 unlinkPending
        = some ({ unlinkPending with TG_connect_state := TG_STATUS.NONE }, [])
    ∧ advanceTG noID 12001 { unlinkPending with unlinkReceived := true }
        = some ({ unlinkPending with TGChange := 12001,
                                     TG_connect_state := TG_STATUS.SEND_REPLY,
                                     m_dstid := 5, unlinkReceived := false }, [])
    ∧ advanceTG noID 12001 replyPending
        = some ({ replyPending with TGChange := 12001,
                                    TG_connect_state := TG_STATUS.SEND_PTT },
            [Out.sendConnectReply 5])
    ∧ advanceTG noID 12001 pttPending
        = some ({ pttPending with TGChange := 12001, TG_connect_state := TG_STATUS.NONE,
                                  m_srcid := 2140001 },
            SendDummyDMR 2140001 5 FLCO.FLCO_GROUP)
    ∧ ∃ id, findYSFID noID pttPending.m_defsrcid pttPending.m_ysfSrc = some id
        ∧ advanceTG noID 12001 pttPending
          = some ({ pttPending with TGChange := 12001, TG_connect_state := TG_STATUS.NONE,
                                    m_srcid := id },
              SendDummyDMR id pttPending.m_next_dstid FLCO.FLCO_GROUP) :=
  ⟨by decide,
    (advanceTG_timeout noID 12001 unlinkPending (by decide)).1 rfl rfl,
    (advanceTG_timeout noID 12001 { unlinkPending with unlinkReceived := true }
      (by decide)).2.2.1 rfl rfl,
    (advanceTG_timeout noID 12001 replyPending (by decide)).2.2.2.1 rfl,
    (advanceTG_timeout noID 12001 pttPending (by decide)).2.1 rfl 2140001 (by decide),
    (advanceTG_timeout noID 12001 pttPending (by decide)).2.2.2.2 rfl (by decide)
      ⟨'E', by decide, by decide⟩⟩

/-! ### The call type -/

/-- Support for C9: in every control state and for either value of the
disconnect-on-switch flag, an explicit disconnect request from either signalling
source, sent with a callsign that gives a lookup key, writes the call to 4000 and
nothing else, stores 9 as pending destination and enters `WAITING_UNLINK`; once a
terminator from 4000 has then been read, the next advance of the machine commits 9 and
enters `SEND_REPLY`, whatever the clock reading. -/
theorem disconnect_request_run (findID : List Char → Nat) (now now' ms dstId : Nat)
    (s : Gateway) (f : YSFIn) (id : Nat)
    (hid : findYSFID findID s.m_defsrcid (ysfSrcOf f.source) = some id) :
    ∃ s1 : Gateway,
      (f.wx = WX_STATUS.WXS_DISCONNECT →
        wiresXCase findID now s f = some (s1, SendDummyDMR id 4000 FLCO.FLCO_GROUP, false))
      ∧ (f.isVDMode2 = true → f.dtmf = WX_STATUS.WXS_DISCONNECT →
        dtmfCase findID now s f = some (s1, SendDummyDMR id 4000 FLCO.FLCO_GROUP, false))
      ∧ s1.TG_connect_state = TG_STATUS.WAITING_UNLINK ∧ s1.m_next_dstid = 9
      ∧ ∃ s2 : Gateway,
          advanceTG findID now' (dmrFrame ms s1 (dmrTerminator 4000 dstId)).1 = some (s2, [])
          ∧ s2.TG_connect_state = TG_STATUS.SEND_REPLY ∧ s2.m_dstid = 9 := by
  refine ⟨{ s with m_dstid := 4000, m_next_dstid := 9, m_ysfSrc := ysfSrcOf f.source,
                   m_srcid := id, TG_connect_state := TG_STATUS.WAITING_UNLINK,
                   TGChange := now }, ?_, ?_, rfl, rfl, ?_⟩
  · intro hwx
    unfold wiresXCase
    simp only [hwx]
    rw [disconnectCase_ok findID now s f id hid]
  · intro hvd hdt
    unfold dtmfCase
    simp only [hvd, hdt, if_true]
    rw [disconnectCase_ok findID now s f id hid]
  · have hnn : ¬ (now' - now' > 12000) := by omega
    simp [advanceTG, tgSwitch, tgTimeout, elapsed, dmrFrame, dmrTerminator]

/-- Claim C9, the code at the failing input. While idle with disconnect-on-switch disabled,
an explicit disconnect request whose source callsign field is blank makes `findYSFID`
throw before `SendDummyDMR` is reached, on the Wires-X path and on the DTMF path: no
call to 4000 is written, the machine does not enter `WAITING_UNLINK` and the loop
ends. -/
theorem disconnect_blank_source_aborts :
    wiresXCase noID 1000 (startup false false 91 2140001 0) (wxDisconnect blankCallsign) = none
    ∧ dtmfCase noID 1000 (startup false false 91 2140001 0) (dtmfDisconnect blankCallsign)
        = none
    ∧ runLoop noID (startup false false 91 2140001 0)
        [{ quiet 1000 with ysfIn := [wxDisconnect blankCallsign] }] = none := by
  refine ⟨by decide, by decide, by decide⟩

/-! ### The position of DMR voice frames -/

set_option maxRecDepth 100000

theorem usub32_eq_mod (a b : Nat) (ha : a < 4294967296) (hb : b < 4294967296) :
    usub32 a b = (a + 4294967296 - b) % 4294967296 := by
  unfold usub32
  split_ifs <;> omega

theorem incr8_iterate (j : Nat) : ∀ c, c < 256 → incr8^[j] c = (c + j) % 256 := by
  induction j with
  | zero => intro c hc; simp; omega
  | succ j ih =>
    intro c hc
    rw [Function.iterate_succ_apply, ih (incr8 c) (by unfold incr8; omega)]
    unfold incr8
    omega

theorem dmrOutput_data (s : Gateway) :
    (dmrOutput s TAG.TAG_DATA).1.dmr_cnt = incr8 s.dmr_cnt
      ∧ positions (dmrOutput s TAG.TAG_DATA).2
        = [(if nDMR s.dmr_cnt = 0 then DataType.DT_VOICE_SYNC else DataType.DT_VOICE,
            nDMR s.dmr_cnt)] := by
  unfold dmrOutput
  dsimp only
  refine ⟨rfl, ?_⟩
  by_cases h : nDMR s.dmr_cnt = 0
  · rw [if_pos h, if_pos h]; rfl
  · rw [if_neg h, if_neg h]; rfl

theorem positions_append (a b : List Out) : positions (a ++ b) = positions a ++ positions b := by
  induction a with
  | nil => rfl
  | cons x a ih => cases x <;> simp [positions, ih]

/-- Support for C10: the voice frames written for `k` successive voice units are, in
order, the frames at the positions computed from the successive values of the 8-bit
counter, a voice-sync frame where the position is 0 and a voice frame elsewhere. -/
theorem dmrOutputs_data (k : Nat) :
    ∀ (s : Gateway), (dmrOutputs s (List.replicate k TAG.TAG_DATA)).1.dmr_cnt = incr8^[k] s.dmr_cnt
      ∧ positions (dmrOutputs s (List.replicate k TAG.TAG_DATA)).2
        = (List.range k).map (fun j =>
            (if nDMR (incr8^[j] s.dmr_cnt) = 0 then DataType.DT_VOICE_SYNC
              else DataType.DT_VOICE, nDMR (incr8^[j] s.dmr_cnt))) := by
  induction k with
  | zero => intro s; exact ⟨rfl, rfl⟩
  | succ k ih =>
    intro s
    obtain ⟨h1, h2⟩ := dmrOutput_data s
    obtain ⟨h3, h4⟩ := ih (dmrOutput s TAG.TAG_DATA).1
    rw [List.replicate_succ, dmrOutputs]
    dsimp only
    rw [positions_append, h2, h3, h4, h1, List.range_succ_eq_map, List.map_cons, List.map_map]
    exact ⟨(Function.iterate_succ_apply incr8 k s.dmr_cnt).symm, rfl⟩

/-- Support for C10: for the first 256 voice frames after a voice header the position
computed from the 8-bit counter is `k mod 6`. -/
theorem nDMR_before_wrap (k : Nat) (hk : k < 256) : nDMR (incr8^[k] 3) = k % 6 := by
  rw [incr8_iterate k 3 (by omega)]
  unfold nDMR usub32
  split_ifs <;> omega

/-- Claim C10, the code at the failing input. After a voice header the driver is handed 257
voice units. The frame with `k = 255` has position 3 and the frame with `k = 256`, the
first one written after `dmr_cnt` has wrapped to 3, is a voice-sync frame with position
0 and no embedded fragment, although `256 mod 6 = 4`. -/
theorem dmr_position_after_wrap :
    ((positions (dmrOutputs (startup false false 9 2140001 0)
        (TAG.TAG_HEADER :: List.replicate 257 TAG.TAG_DATA)).2).drop 3).drop 255
      = [(DataType.DT_VOICE, 3), (DataType.DT_VOICE_SYNC, 0)]
    ∧ (dmrOutputs (startup false false 9 2140001 0)
        (TAG.TAG_HEADER :: List.replicate 257 TAG.TAG_DATA)).2.getLast?
      = some (Out.dmrWrite
          { slotNo := 2, srcId := 2140001, dstId := 9, flco := FLCO.FLCO_GROUP, n := 0,
            seqNo := 3, dataType := DataType.DT_VOICE_SYNC, emb := none, silence := false })
    ∧ 256 % 6 = 4 := by
  refine ⟨by decide, by decide, by decide⟩

/-! ### The frame number of YSF data frames -/

theorem frameNumbers_append (a b : List Out) :
    frameNumbers (a ++ b) = frameNumbers a ++ frameNumbers b := by
  induction a with
  | nil => rfl
  | cons x a ih =>
    cases x with
    | ysfWrite f =>
      by_cases hf : f.fi = FI.YSF_FI_COMMUNICATIONS <;> simp [frameNumbers, ih, hf]
    | _ => simp [frameNumbers, ih]

theorem ysfOutput_header (s : Gateway) :
    (ysfOutput s TAG.TAG_HEADER).1.ysf_cnt = 1
      ∧ frameNumbers (ysfOutput s TAG.TAG_HEADER).2 = [] := by
  unfold ysfOutput
  exact ⟨rfl, rfl⟩

theorem ysfOutput_data (s : Gateway) :
    (ysfOutput s TAG.TAG_DATA).1.ysf_cnt = incr8 s.ysf_cnt
      ∧ frameNumbers (ysfOutput s TAG.TAG_DATA).2 = [fnYSF s.ysf_cnt] := by
  unfold ysfOutput
  exact ⟨rfl, rfl⟩

theorem ysfOutput_other (s : Gateway) (tag : TAG) (h1 : tag ≠ TAG.TAG_HEADER)
    (h2 : tag ≠ TAG.TAG_DATA) :
    (ysfOutput s tag).1.ysf_cnt = s.ysf_cnt ∧ frameNumbers (ysfOutput s tag).2 = [] := by
  cases tag
  · exact absurd rfl h1
  · exact absurd rfl h2
  · unfold ysfOutput; exact ⟨rfl, rfl⟩
  · unfold ysfOutput; exact ⟨rfl, rfl⟩

/-- The frame numbers written over a run of ticks without a header are computed from
the successive values of the 8-bit counter, one per data unit. -/
theorem ysfOutputs_fn (tags : List TAG) :
    ∀ s : Gateway, TAG.TAG_HEADER ∉ tags →
      (ysfOutputs s tags).1.ysf_cnt = incr8^[tags.count TAG.TAG_DATA] s.ysf_cnt
      ∧ frameNumbers (ysfOutputs s tags).2
        = (List.range (tags.count TAG.TAG_DATA)).map (fun j => fnYSF (incr8^[j] s.ysf_cnt)) := by
  induction tags with
  | nil => intro s _; exact ⟨rfl, rfl⟩
  | cons tag tags ih =>
    intro s h
    have ht : tag ≠ TAG.TAG_HEADER := fun e => h (e ▸ List.mem_cons_self _ _)
    have hts : TAG.TAG_HEADER ∉ tags := fun e => h (List.mem_cons_of_mem _ e)
    obtain ⟨h3, h4⟩ := ih (ysfOutput s tag).1 hts
    rw [ysfOutputs]
    dsimp only
    rw [frameNumbers_append, h3, h4]
    by_cases hd : tag = TAG.TAG_DATA
    · subst hd
      obtain ⟨h1, h2⟩ := ysfOutput_data s
      rw [h1, h2, List.count_cons_self, List.range_succ_eq_map, List.map_cons, List.map_map]
      exact ⟨(Function.iterate_succ_apply incr8 _ s.ysf_cnt).symm, rfl⟩
    · obtain ⟨h1, h2⟩ := ysfOutput_other s tag ht hd
      rw [h1, h2, List.count_cons_of_ne (Ne.symm hd)]
      exact ⟨rfl, rfl⟩

/-- The frame number computed from the counter value reached `k` data frames after a
header is `k mod 8`, across the wrap of the counter. -/
theorem fnYSF_after_header (k : Nat) : fnYSF ((1 + k) % 256) = k % 8 := by
  unfold fnYSF usub32
  split_ifs <;> omega

theorem ysfOutputs_after_header (s : Gateway) (tags : List TAG) (h : TAG.TAG_HEADER ∉ tags) :
    frameNumbers (ysfOutputs s (TAG.TAG_HEADER :: tags)).2
      = (List.range (tags.count TAG.TAG_DATA)).map (fun k => k % 8) := by
  rw [ysfOutputs]
  dsimp only
  rw [frameNumbers_append, (ysfOutput_header s).2, List.nil_append,
    (ysfOutputs_fn tags _ h).2, (ysfOutput_header s).1]
  apply List.map_congr_left
  intro k _
  rw [incr8_iterate k 1 (by omega), fnYSF_after_header]

/-! ### The YSF frame counter over the loop -/

theorem tgSwitch_ysf_cnt (findID : List Char → Nat) (now : Nat) (s : Gateway)
    (r : Gateway × List Out) (hr : tgSwitch findID now s = some r) :
    r.1.ysf_cnt = s.ysf_cnt ∧ frameNumbers r.2 = [] := by
  unfold tgSwitch at hr
  split at hr
  · split at hr <;> (simp only [Option.some.injEq] at hr; subst hr; exact ⟨rfl, rfl⟩)
  · split at hr <;> (simp only [Option.some.injEq] at hr; subst hr; exact ⟨rfl, rfl⟩)
  · split at hr
    · split at hr
      · simp at hr
      · simp only [Option.some.injEq] at hr; subst hr; exact ⟨rfl, rfl⟩
    · simp only [Option.some.injEq] at hr; subst hr; exact ⟨rfl, rfl⟩
  · simp only [Option.some.injEq] at hr; subst hr; exact ⟨rfl, rfl⟩

theorem advanceTG_ysf_cnt (findID : List Char → Nat) (now : Nat) (s : Gateway)
    (r : Gateway × List Out) (hr : advanceTG findID now s = some r) :
    r.1.ysf_cnt = s.ysf_cnt ∧ frameNumbers r.2 = [] := by
  unfold advanceTG at hr
  split at hr
  · simp at hr
  · next s1 out1 h1 =>
    simp only [Option.some.injEq] at hr
    subst hr
    have h := tgSwitch_ysf_cnt findID now s (s1, out1) h1
    unfold tgTimeout
    dsimp only at h ⊢
    split <;> exact h

theorem connectTail_ysf_cnt (findID : List Char → Nat) (now : Nat) (s : Gateway)
    (f : YSFIn) (r : Gateway × List Out) (hr : connectTail findID now s f = some r) :
    r.1.ysf_cnt = s.ysf_cnt ∧ frameNumbers r.2 = [] := by
  unfold connectTail at hr
  dsimp only at hr
  split at hr
  · split at hr
    · simp at hr
    · simp only [Option.some.injEq] at hr; subst hr; exact ⟨rfl, rfl⟩
  · simp only [Option.some.injEq] at hr; subst hr; exact ⟨rfl, rfl⟩

theorem disconnectCase_ysf_cnt (findID : List Char → Nat) (now : Nat) (s : Gateway)
    (f : YSFIn) (r : Gateway × List Out) (hr : disconnectCase findID now s f = some r) :
    r.1.ysf_cnt = s.ysf_cnt ∧ frameNumbers r.2 = [] := by
  unfold disconnectCase at hr
  dsimp only at hr
  split at hr
  · simp at hr
  · simp only [Option.some.injEq] at hr; subst hr; exact ⟨rfl, rfl⟩

theorem wiresXCase_ysf_cnt (findID : List Char → Nat) (now : Nat) (s : Gateway) (f : YSFIn)
    (r : Gateway × List Out × Bool) (hr : wiresXCase findID now s f = some r) :
    r.1.ysf_cnt = s.ysf_cnt ∧ frameNumbers r.2.1 = [] := by
  unfold wiresXCase at hr
  cases hwx : f.wx with
  | WXS_CONNECT =>
    simp only [hwx] at hr
    split at hr
    · simp only [Option.some.injEq] at hr; subst hr; exact ⟨rfl, rfl⟩
    · split at hr
      · simp at hr
      · next s' out hc =>
        simp only [Option.some.injEq] at hr
        subst hr
        have e := connectTail_ysf_cnt findID now _ f (s', out) hc
        exact e
  | WXS_DX =>
    simp only [hwx, Option.some.injEq] at hr
    subst hr
    exact ⟨rfl, rfl⟩
  | WXS_DISCONNECT =>
    simp only [hwx] at hr
    split at hr
    · simp at hr
    · next s' out hc =>
      simp only [Option.some.injEq] at hr
      subst hr
      exact disconnectCase_ysf_cnt findID now s f (s', out) hc
  | WXS_NONE =>
    simp only [hwx] at hr
    split at hr
    · split at hr
      · split at hr
        · split at hr
          · split at hr
            · simp at hr
            · simp only [Option.some.injEq] at hr; subst hr; exact ⟨rfl, rfl⟩
          · simp only [Option.some.injEq] at hr; subst hr; exact ⟨rfl, rfl⟩
        · simp only [Option.some.injEq] at hr; subst hr; exact ⟨rfl, rfl⟩
        · simp only [Option.some.injEq] at hr; subst hr; exact ⟨rfl, rfl⟩
        · simp only [Option.some.injEq] at hr; subst hr; exact ⟨rfl, rfl⟩
      · simp only [Option.some.injEq] at hr; subst hr; exact ⟨rfl, rfl⟩
    · simp only [Option.some.injEq] at hr; subst hr; exact ⟨rfl, rfl⟩

theorem dtmfCase_ysf_cnt (findID : List Char → Nat) (now : Nat) (s : Gateway) (f : YSFIn)
    (r : Gateway × List Out × Bool) (hr : dtmfCase findID now s f = some r) :
    r.1.ysf_cnt = s.ysf_cnt ∧ frameNumbers r.2.1 = [] := by
  unfold dtmfCase at hr
  cases hst : (if f.isVDMode2 = true then f.dtmf else WX_STATUS.WXS_NONE) with
  | WXS_CONNECT =>
    simp only [hst] at hr
    split at hr
    · simp only [Option.some.injEq] at hr; subst hr; exact ⟨rfl, rfl⟩
    · split at hr
      · simp at hr
      · next s' out hc =>
        simp only [Option.some.injEq] at hr
        subst hr
        have e := connectTail_ysf_cnt findID now _ f (s', out) hc
        exact e
  | WXS_DISCONNECT =>
    simp only [hst] at hr
    split at hr
    · simp at hr
    · next s' out hc =>
      simp only [Option.some.injEq] at hr
      subst hr
      exact disconnectCase_ysf_cnt findID now s f (s', out) hc
  | WXS_DX =>
    simp only [hst, Option.some.injEq] at hr
    subst hr
    exact ⟨rfl, rfl⟩
  | WXS_NONE =>
    simp only [hst, Option.some.injEq] at hr
    subst hr
    exact ⟨rfl, rfl⟩

theorem ysfFrame_ysf_cnt (findID : List Char → Nat) (now : Nat) (s : Gateway) (f : YSFIn)
    (r : Gateway × List Out) (hr : ysfFrame findID now s f = some r) :
    r.1.ysf_cnt = s.ysf_cnt ∧ frameNumbers r.2 = [] := by
  unfold ysfFrame at hr
  split at hr
  · split at hr
    · simp at hr
    · next s1 out1 h1 =>
      simp only [Option.some.injEq] at hr
      subst hr
      exact wiresXCase_ysf_cnt findID now s f _ h1
    · next s1 out1 h1 =>
      have e1 := wiresXCase_ysf_cnt findID now s f _ h1
      split at hr
      · simp at hr
      · next s2 out2 c2 h2 =>
        have e2 := dtmfCase_ysf_cnt findID now s1 f _ h2
        simp only [Option.some.injEq] at hr
        subst hr
        refine ⟨e2.1.trans e1.1, ?_⟩
        rw [frameNumbers_append, e1.2, e2.2]
        rfl
  · simp only [Option.some.injEq] at hr
    subst hr
    exact ⟨rfl, rfl⟩

theorem ysfLoop_ysf_cnt (findID : List Char → Nat) (now : Nat) (fs : List YSFIn) :
    ∀ (s : Gateway) (r : Gateway × List Out),
      ysfLoop findID now s fs = some r → r.1.ysf_cnt = s.ysf_cnt ∧ frameNumbers r.2 = [] := by
  induction fs with
  | nil =>
    intro s r hr
    simp only [ysfLoop, Option.some.injEq] at hr
    subst hr
    exact ⟨rfl, rfl⟩
  | cons f fs ih =>
    intro s r hr
    unfold ysfLoop at hr
    split at hr
    · simp at hr
    · next s1 out1 h1 =>
      have e1 := ysfFrame_ysf_cnt findID now s f _ h1
      split at hr
      · simp at hr
      · next s2 out2 h2 =>
        have e2 := ih s1 _ h2
        simp only [Option.some.injEq] at hr
        subst hr
        refine ⟨e2.1.trans e1.1, ?_⟩
        rw [frameNumbers_append, e1.2, e2.2]
        rfl

theorem frameNumbers_fillLoop (s : Gateway) (fill : Nat) :
    ∀ n c, frameNumbers (fillLoop s fill n c).1 = [] := by
  induction fill with
  | zero => intro n c; rfl
  | succ fill ih =>
    intro n c
    rw [fillLoop]
    exact ih (n + 1) (incr8 c)

theorem dmrOutput_ysf_cnt (s : Gateway) (tag : TAG) :
    (dmrOutput s tag).1.ysf_cnt = s.ysf_cnt ∧ frameNumbers (dmrOutput s tag).2 = [] := by
  cases tag
  · unfold dmrOutput; exact ⟨rfl, rfl⟩
  · unfold dmrOutput
    dsimp only
    refine ⟨rfl, ?_⟩
    split_ifs <;> rfl
  · unfold dmrOutput
    dsimp only
    refine ⟨rfl, ?_⟩
    rw [frameNumbers_append, apply_ite Prod.fst, apply_ite frameNumbers, frameNumbers_fillLoop]
    simp [frameNumbers]
  · unfold dmrOutput; exact ⟨rfl, rfl⟩

theorem dmrFrame_ysf_cnt (ms : Nat) (s : Gateway) (d : DMRIn) :
    (dmrFrame ms s d).1.ysf_cnt = s.ysf_cnt ∧ frameNumbers (dmrFrame ms s d).2 = [] := by
  constructor
  · simp only [dmrFrame, apply_ite Prod.fst, apply_ite Gateway.ysf_cnt, ite_self]
  · simp only [dmrFrame, apply_ite Prod.snd, apply_ite frameNumbers, frameNumbers_append,
      frameNumbers, List.append_nil, ite_self]

theorem dmrLoop_ysf_cnt (ms : Nat) (ds : List DMRIn) :
    ∀ (s : Gateway),
      (dmrLoop ms s ds).1.ysf_cnt = s.ysf_cnt ∧ frameNumbers (dmrLoop ms s ds).2 = [] := by
  induction ds with
  | nil => intro s; exact ⟨rfl, rfl⟩
  | cons d ds ih =>
    intro s
    unfold dmrLoop
    dsimp only
    rw [frameNumbers_append, (ih _).1, (ih _).2, (dmrFrame_ysf_cnt ms s d).1,
      (dmrFrame_ysf_cnt ms s d).2]
    exact ⟨rfl, rfl⟩

theorem ysfOutput_congr (s s' : Gateway) (tag : TAG) (h : s.ysf_cnt = s'.ysf_cnt) :
    (ysfOutput s tag).1.ysf_cnt = (ysfOutput s' tag).1.ysf_cnt
      ∧ frameNumbers (ysfOutput s tag).2 = frameNumbers (ysfOutput s' tag).2 := by
  cases tag
  · unfold ysfOutput; exact ⟨rfl, rfl⟩
  · unfold ysfOutput
    dsimp only
    rw [h]
    exact ⟨rfl, rfl⟩
  · unfold ysfOutput; exact ⟨h, rfl⟩
  · unfold ysfOutput; exact ⟨h, rfl⟩

theorem ysfOutputs_congr (tags : List TAG) :
    ∀ s s' : Gateway, s.ysf_cnt = s'.ysf_cnt →
      (ysfOutputs s tags).1.ysf_cnt = (ysfOutputs s' tags).1.ysf_cnt
      ∧ frameNumbers (ysfOutputs s tags).2 = frameNumbers (ysfOutputs s' tags).2 := by
  induction tags with
  | nil => intro s s' h; exact ⟨h, rfl⟩
  | cons tag tags ih =>
    intro s s' h
    obtain ⟨h1, h2⟩ := ysfOutput_congr s s' tag h
    obtain ⟨h3, h4⟩ := ih (ysfOutput s tag).1 (ysfOutput s' tag).1 h1
    rw [ysfOutputs, ysfOutputs]
    dsimp only
    rw [frameNumbers_append, frameNumbers_append, h2, h4]
    exact ⟨h3, rfl⟩

/-- One iteration of the loop changes `ysf_cnt` and writes YSF data frames only in
the YSF output block. -/
theorem loopBody_ysf_cnt (findID : List Char → Nat) (s : Gateway) (i : Inputs)
    (r : Gateway × List Out) (hr : loopBody findID s i = some r) :
    r.1.ysf_cnt = (ysfOutputs s i.ysfTick.toList).1.ysf_cnt
      ∧ frameNumbers r.2 = frameNumbers (ysfOutputs s i.ysfTick.toList).2 := by
  unfold loopBody at hr
  split at hr
  · simp at hr
  · next s1 out1 h1 =>
    have e1 := advanceTG_ysf_cnt findID i.now s _ h1
    split at hr
    · simp at hr
    · next s2 out2 h2 =>
      have e2 := ysfLoop_ysf_cnt findID i.now i.ysfIn s1 _ h2
      dsimp only at hr
      have e3 : (match i.dmrTick with
          | some tag => dmrOutput s2 tag
          | none => (s2, [])).1.ysf_cnt = s2.ysf_cnt
          ∧ frameNumbers (match i.dmrTick with
          | some tag => dmrOutput s2 tag
          | none => (s2, [])).2 = [] := by
        cases i.dmrTick with
        | none => exact ⟨rfl, rfl⟩
        | some tag => exact dmrOutput_ysf_cnt s2 tag
      generalize (match i.dmrTick with
          | some tag => dmrOutput s2 tag
          | none => (s2, [])) = r3 at hr e3
      have e4 := dmrLoop_ysf_cnt i.ms i.dmrIn r3.1
      generalize dmrLoop i.ms r3.1 i.dmrIn = r4 at hr e4
      have h4 : r4.1.ysf_cnt = s.ysf_cnt :=
        e4.1.trans (e3.1.trans (e2.1.trans e1.1))
      simp only [Option.some.injEq] at hr
      subst hr
      dsimp only
      rw [frameNumbers_append, frameNumbers_append, frameNumbers_append, frameNumbers_append,
        e1.2, e2.2, e3.2, e4.2]
      cases i.ysfTick with
      | none => exact ⟨h4, rfl⟩
      | some tag =>
        obtain ⟨c1, c2⟩ := ysfOutput_congr r4.1 s tag h4
        simp only [Option.toList, ysfOutputs, List.nil_append, List.append_nil]
        exact ⟨c1, c2⟩

theorem ysfTicks_cons (i : Inputs) (is : List Inputs) :
    ysfTicks (i :: is) = i.ysfTick.toList ++ ysfTicks is := by
  cases h : i.ysfTick <;> simp [ysfTicks, h]

/-- Over the loop the YSF data frames written and the final `ysf_cnt` are those of the
successive passes through the YSF output block. -/
theorem runLoop_ysf_cnt (findID : List Char → Nat) (is : List Inputs) :
    ∀ (s : Gateway) (r : Gateway × List Out), runLoop findID s is = some r →
      r.1.ysf_cnt = (ysfOutputs s (ysfTicks is)).1.ysf_cnt
      ∧ frameNumbers r.2 = frameNumbers (ysfOutputs s (ysfTicks is)).2 := by
  induction is with
  | nil =>
    intro s r hr
    simp only [runLoop, Option.some.injEq] at hr
    subst hr
    exact ⟨rfl, rfl⟩
  | cons i is ih =>
    intro s r hr
    unfold runLoop at hr
    split at hr
    · simp at hr
    · next s1 out1 h1 =>
      have e1 := loopBody_ysf_cnt findID s i _ h1
      split at hr
      · simp at hr
      · next s2 out2 h2 =>
        have e2 := ih s1 _ h2
        simp only [Option.some.injEq] at hr
        subst hr
        dsimp only at e1 e2 ⊢
        rw [frameNumbers_append, e1.2, e2.2, e2.1, ysfTicks_cons]
        cases hi : i.ysfTick with
        | none =>
          rw [hi] at e1
          simp only [Option.toList, ysfOutputs, frameNumbers, List.nil_append] at e1 ⊢
          obtain ⟨c1, c2⟩ := ysfOutputs_congr (ysfTicks is) s1 s e1.1
          rw [c1, c2]
          exact ⟨rfl, rfl⟩
        | some tag =>
          rw [hi] at e1
          simp only [Option.toList, ysfOutputs, List.append_nil, List.singleton_append] at e1 ⊢
          obtain ⟨c1, c2⟩ := ysfOutputs_congr (ysfTicks is) s1 (ysfOutput s tag).1 e1.1
          rw [frameNumbers_append, c1, c2]
          exact ⟨rfl, rfl⟩

/-- Claim C11. A YSF header leaves `ysf_cnt = 1`. Over any run of output ticks after a
header that holds no further header, the `k`-th data frame written (counting from 0)
has the FICH frame number `k mod 8`, in the YSF output block taken alone and over any
run of the loop whose YSF output ticks are that header and these units. The counter
value at that frame is `(1 + k) mod 256` and the frame number `(ysf_cnt - 1U) % 8U`
computed from it is `k mod 8` also once the counter has wrapped from 255 to 0. -/
theorem ysf_frame_number (s : Gateway) (tags : List TAG) (h : TAG.TAG_HEADER ∉ tags) :
    (ysfOutput s TAG.TAG_HEADER).1.ysf_cnt = 1
    ∧ frameNumbers (ysfOutputs s (TAG.TAG_HEADER :: tags)).2
        = (List.range (tags.count TAG.TAG_DATA)).map (fun k => k % 8)
    ∧ (∀ (findID : List Char → Nat) (is : List Inputs) (r : Gateway × List Out),
        ysfTicks is = TAG.TAG_HEADER :: tags → runLoop findID s is = some r →
        frameNumbers r.2 = (List.range (tags.count TAG.TAG_DATA)).map (fun k => k % 8))
    ∧ (∀ k, incr8^[k] 1 = (1 + k) % 256 ∧ fnYSF (incr8^[k] 1) = k % 8)
    ∧ incr8 255 = 0 ∧ fnYSF 0 = 7 ∧ fnYSF 1 = 0 :=
  ⟨(ysfOutput_header s).1, ysfOutputs_after_header s tags h,
    fun findID is r ht hr => by
      rw [(runLoop_ysf_cnt findID is s r hr).2, ht]
      exact ysfOutputs_after_header s tags h,
    fun k => ⟨incr8_iterate k 1 (by omega),
      by rw [incr8_iterate k 1 (by omega)]; exact fnYSF_after_header k⟩,
    by decide, by decide, by decide⟩

/-- Witness of C11: a header, 300 data units and an end of transmission, in the YSF
output block and over the loop. -/
theorem ysf_frame_number_witness :
    TAG.TAG_HEADER ∉ List.replicate 300 TAG.TAG_DATA ++ [TAG.TAG_EOT]
    ∧ frameNumbers (ysfOutputs (startup false false 9 2140001 9)
        (TAG.TAG_HEADER :: (List.replicate 300 TAG.TAG_DATA ++ [TAG.TAG_EOT]))).2
        = (List.range ((List.replicate 300 TAG.TAG_DATA ++ [TAG.TAG_EOT]).count TAG.TAG_DATA)).map
            (fun k => k % 8)
    ∧ (runLoop noID (startup false false 9 2140001 9) voiceInputs).isSome = true
    ∧ ∀ r, runLoop noID (startup false false 9 2140001 9) voiceInputs = some r →
        frameNumbers r.2
          = (List.range ((List.replicate 300 TAG.TAG_DATA ++ [TAG.TAG_EOT]).count
              TAG.TAG_DATA)).map (fun k => k % 8) :=
  ⟨by decide,
    (ysf_frame_number (startup false false 9 2140001 9)
      (List.replicate 300 TAG.TAG_DATA ++ [TAG.TAG_EOT]) (by decide)).2.1,
    by decide,
    fun r hr =>
      (ysf_frame_number (startup false false 9 2140001 9)
        (List.replicate 300 TAG.TAG_DATA ++ [TAG.TAG_EOT]) (by decide)).2.2.1
        noID voiceInputs r (by decide) hr⟩

theorem ysfOutputs_transmission (s : Gateway) (N : Nat) :
    frameNumbers (ysfOutputs s (TAG.TAG_HEADER :: List.replicate N TAG.TAG_DATA)).2
      = (List.range N).map (fun k => k % 8) := by
  have h : TAG.TAG_HEADER ∉ List.replicate N TAG.TAG_DATA := by
    intro hm
    exact absurd (List.eq_of_mem_replicate hm) (by decide)
  rw [ysfOutputs_after_header s _ h, List.count_replicate_self]

/-- Claim C12 as stated fails: a header followed by eight data units. The eighth data
frame is written with frame number 7 and the second beacon block as payload, so not
every frame number lies in 0..6 and the frame after the one numbered 6 is numbered 7. -/
theorem frame_number_seven :
    frameNumbers (ysfOutputs (startup false false 9 2140001 9)
        (TAG.TAG_HEADER :: List.replicate 8 TAG.TAG_DATA)).2 = [0, 1, 2, 3, 4, 5, 6, 7]
    ∧ ¬ (∀ fn ∈ frameNumbers (ysfOutputs (startup false false 9 2140001 9)
          (TAG.TAG_HEADER :: List.replicate 8 TAG.TAG_DATA)).2, fn ≤ 6)
    ∧ (ysfOutputs (startup false false 9 2140001 9)
        (TAG.TAG_HEADER :: List.replicate 8 TAG.TAG_DATA)).2.getLast?
      = some (Out.ysfWrite { fi := FI.YSF_FI_COMMUNICATIONS, fn := 7, counter := 16,
                             payload := YSFPayload.gps2 }) := by
  refine ⟨by decide, by decide, by decide⟩

/-- Claim C12, amended. For a header followed by `N` data units the driver writes `N`
data frames whose frame numbers run 0, 1, ..., 7, 0, 1, ...: every frame number lies
in 0..7, the first is 0, and the frame after one numbered 7 is numbered 0 while the
frame after one numbered `j < 7` is numbered `j + 1`. -/
theorem ysf_frame_number_cycle (s : Gateway) (N : Nat) :
    (frameNumbers (ysfOutputs s (TAG.TAG_HEADER :: List.replicate N TAG.TAG_DATA)).2).length = N
    ∧ (∀ fn ∈ frameNumbers (ysfOutputs s (TAG.TAG_HEADER :: List.replicate N TAG.TAG_DATA)).2,
        fn ≤ 7)
    ∧ (0 < N →
        (frameNumbers (ysfOutputs s (TAG.TAG_HEADER :: List.replicate N TAG.TAG_DATA)).2).getD 0 0
          = 0)
    ∧ ∀ i, i + 1 < N →
        (frameNumbers (ysfOutputs s (TAG.TAG_HEADER :: List.replicate N TAG.TAG_DATA)).2).getD
            (i + 1) 0
          = if (frameNumbers
                (ysfOutputs s (TAG.TAG_HEADER :: List.replicate N TAG.TAG_DATA)).2).getD i 0 = 7
            then 0
            else (frameNumbers
                (ysfOutputs s (TAG.TAG_HEADER :: List.replicate N TAG.TAG_DATA)).2).getD i 0 + 1 := by
  rw [ysfOutputs_transmission]
  have hget : ∀ i, i < N → ((List.range N).map (fun k => k % 8)).getD i 0 = i % 8 := by
    intro i hi
    rw [List.getD_eq_getElem _ _ (by simpa using hi)]
    simp
  refine ⟨by simp, ?_, ?_, ?_⟩
  · intro fn hfn
    simp only [List.mem_map, List.mem_range] at hfn
    obtain ⟨k, _, hk⟩ := hfn
    omega
  · intro hN
    rw [hget 0 hN]
  · intro i hi
    rw [hget (i + 1) hi, hget i (by omega)]
    split_ifs <;> omega

/-- Witness of the amended C12: twenty data frames; the ninth is numbered 0 again. -/
theorem ysf_frame_number_cycle_witness :
    0 < 20 ∧ 7 + 1 < 20
    ∧ (frameNumbers (ysfOutputs (startup false false 9 2140001 9)
        (TAG.TAG_HEADER :: List.replicate 20 TAG.TAG_DATA)).2).getD 0 0 = 0
    ∧ (frameNumbers (ysfOutputs (startup false false 9 2140001 9)
        (TAG.TAG_HEADER :: List.replicate 20 TAG.TAG_DATA)).2).getD (7 + 1) 0
      = if (frameNumbers (ysfOutputs (startup false false 9 2140001 9)
            (TAG.TAG_HEADER :: List.replicate 20 TAG.TAG_DATA)).2).getD 7 0 = 7
        then 0
        else (frameNumbers (ysfOutputs (startup false false 9 2140001 9)
            (TAG.TAG_HEADER :: List.replicate 20 TAG.TAG_DATA)).2).getD 7 0 + 1 :=
  ⟨by decide, by decide,
    (ysf_frame_number_cycle (startup false false 9 2140001 9) 20).2.2.1 (by decide),
    (ysf_frame_number_cycle (startup false false 9 2140001 9) 20).2.2.2 7 (by decide)⟩

/-! ### The DMR frames written at an output tick -/

/-- The padding loop of the `TAG_EOT` branch writes `fill` silence frames with the
successive fragment indices and sequence numbers. -/
theorem fillLoop_eq (s : Gateway) (fill : Nat) :
    ∀ n c, fillLoop s fill n c
      = ((List.range fill).map (fun j => Out.dmrWrite
            { slotNo := 2, srcId := s.m_srcid, dstId := s.m_dstid, flco := s.dmrflco,
              n := n + j, seqNo := incr8^[j] c, dataType := DataType.DT_VOICE,
              emb := some (n + j), silence := true }),
          n + fill, incr8^[fill] c) := by
  induction fill with
  | zero => intro n c; rfl
  | succ fill ih =>
    intro n c
    rw [fillLoop, ih (n + 1) (incr8 c), List.range_succ_eq_map, List.map_cons, List.map_map]
    refine Prod.ext ?_ (Prod.ext ?_ ?_)
    · refine congrArg₂ List.cons rfl ?_
      apply List.map_congr_left
      intro j _
      simp only [Function.comp_apply, Function.iterate_succ_apply]
      have e : n + 1 + j = n + (j + 1) := by omega
      rw [e]
    · dsimp only; omega
    · rfl

theorem nDMR_lt (c : Nat) : nDMR c < 6 := by
  unfold nDMR
  exact Nat.mod_lt _ (by decide)

/-- The frames written at an end of transmission whose position is not 0. -/
theorem dmrOutput_eot_fill (s : Gateway) (hn : nDMR s.dmr_cnt ≠ 0) :
    (dmrOutput s TAG.TAG_EOT).2
      = (List.range (6 - nDMR s.dmr_cnt)).map (fun j => Out.dmrWrite
          { slotNo := 2, srcId := s.m_srcid, dstId := s.m_dstid, flco := s.dmrflco,
            n := nDMR s.dmr_cnt + j, seqNo := incr8^[j] s.dmr_cnt,
            dataType := DataType.DT_VOICE, emb := some (nDMR s.dmr_cnt + j),
            silence := true })
        ++ [Out.dmrWrite
          { slotNo := 2, srcId := s.m_srcid, dstId := s.m_dstid, flco := s.dmrflco,
            n := 6, seqNo := incr8^[6 - nDMR s.dmr_cnt] s.dmr_cnt,
            dataType := DataType.DT_TERMINATOR_WITH_LC, emb := none, silence := false }] := by
  have hlt := nDMR_lt s.dmr_cnt
  unfold dmrOutput
  dsimp only
  rw [if_pos hn, fillLoop_eq]
  have e : nDMR s.dmr_cnt + (6 - nDMR s.dmr_cnt) = 6 := by omega
  dsimp only
  rw [e]

/-- The frame written at an end of transmission whose position is 0. -/
theorem dmrOutput_eot_plain (s : Gateway) (hn : nDMR s.dmr_cnt = 0) :
    (dmrOutput s TAG.TAG_EOT).2
      = [Out.dmrWrite
          { slotNo := 2, srcId := s.m_srcid, dstId := s.m_dstid, flco := s.dmrflco,
            n := 0, seqNo := s.dmr_cnt, dataType := DataType.DT_TERMINATOR_WITH_LC,
            emb := none, silence := false }] := by
  unfold dmrOutput
  dsimp only
  rw [if_neg (not_not.mpr hn)]
  dsimp only
  rw [hn]
  rfl

/-- Claim C13 as stated fails: a header and 253 voice units leave `dmr_cnt = 0`, and at
the end of transmission handed over then `(c - 3) mod 6` is 3, while the driver
computes `n = 1` and writes five silence frames with the fragments 1, 2, 3, 4, 5
before the terminator, not three with the fragments 3, 4, 5. -/
theorem eot_padding_low_counter :
    (dmrOutputs (startup false false 9 2140001 0)
        (TAG.TAG_HEADER :: List.replicate 253 TAG.TAG_DATA)).1.dmr_cnt = 0
    ∧ (((0 : Int) - 3) % 6).toNat = 3
    ∧ nDMR 0 = 1
    ∧ (dmrWritten (dmrOutput (dmrOutputs (startup false false 9 2140001 0)
          (TAG.TAG_HEADER :: List.replicate 253 TAG.TAG_DATA)).1 TAG.TAG_EOT).2).map
        (fun d => (d.dataType, d.emb, d.silence))
      = [(DataType.DT_VOICE, some 1, true), (DataType.DT_VOICE, some 2, true),
         (DataType.DT_VOICE, some 3, true), (DataType.DT_VOICE, some 4, true),
         (DataType.DT_VOICE, some 5, true), (DataType.DT_TERMINATOR_WITH_LC, none, false)]
    ∧ (dmrWritten (dmrOutput (dmrOutputs (startup false false 9 2140001 0)
          (TAG.TAG_HEADER :: List.replicate 253 TAG.TAG_DATA)).1 TAG.TAG_EOT).2).length
      ≠ (6 - (((0 : Int) - 3) % 6).toNat) + 1 := by
  refine ⟨by decide, by decide, by decide, by decide, by decide⟩

/-- Claim C13, amended. At an end of transmission handed over with sequence counter
`c = dmr_cnt`, let `n` be the value of the unsigned expression `(dmr_cnt - 3U) % 6U`,
which is `(c - 3) mod 6` for `c ≥ 3` and `c + 1` for `c < 3`. If `n ≠ 0` the driver
writes `6 - n` silence voice frames with the embedded fragments `n, n + 1, ..., 5` in
this order, every index in 1..5, and then one terminator with LC, and nothing else;
if `n = 0` it writes the terminator only. In both cases the last frame written is the
terminator. -/
theorem eot_padding (s : Gateway) :
    (nDMR s.dmr_cnt ≠ 0 →
      (dmrOutput s TAG.TAG_EOT).2
        = (List.range (6 - nDMR s.dmr_cnt)).map (fun j => Out.dmrWrite
            { slotNo := 2, srcId := s.m_srcid, dstId := s.m_dstid, flco := s.dmrflco,
              n := nDMR s.dmr_cnt + j, seqNo := incr8^[j] s.dmr_cnt,
              dataType := DataType.DT_VOICE, emb := some (nDMR s.dmr_cnt + j),
              silence := true })
          ++ [Out.dmrWrite
            { slotNo := 2, srcId := s.m_srcid, dstId := s.m_dstid, flco := s.dmrflco,
              n := 6, seqNo := incr8^[6 - nDMR s.dmr_cnt] s.dmr_cnt,
              dataType := DataType.DT_TERMINATOR_WITH_LC, emb := none, silence := false }]
      ∧ ∀ j, j < 6 - nDMR s.dmr_cnt → 1 ≤ nDMR s.dmr_cnt + j ∧ nDMR s.dmr_cnt + j ≤ 5)
    ∧ (nDMR s.dmr_cnt = 0 →
        (dmrOutput s TAG.TAG_EOT).2
          = [Out.dmrWrite
              { slotNo := 2, srcId := s.m_srcid, dstId := s.m_dstid, flco := s.dmrflco,
                n := 0, seqNo := s.dmr_cnt, dataType := DataType.DT_TERMINATOR_WITH_LC,
                emb := none, silence := false }])
    ∧ (∃ d, (dmrOutput s TAG.TAG_EOT).2.getLast? = some (Out.dmrWrite d)
          ∧ d.dataType = DataType.DT_TERMINATOR_WITH_LC)
    ∧ (3 ≤ s.dmr_cnt → nDMR s.dmr_cnt = (s.dmr_cnt - 3) % 6)
    ∧ (s.dmr_cnt < 3 → nDMR s.dmr_cnt = s.dmr_cnt + 1) := by
  have hlt := nDMR_lt s.dmr_cnt
  refine ⟨?_, ?_, ?_, ?_, ?_⟩
  · intro hn
    exact ⟨dmrOutput_eot_fill s hn, fun j hj => by omega⟩
  · exact dmrOutput_eot_plain s
  · unfold dmrOutput
    dsimp only
    exact ⟨_, List.getLast?_concat _, rfl⟩
  · intro hc
    unfold nDMR usub32
    rw [if_pos hc]
  · intro hc
    unfold nDMR usub32
    split_ifs <;> omega

/-- Witness of the amended C13: the end of a transmission after a header and two voice
units (counter 5, `n = 2`: the silence frames with fragments 2, 3, 4, 5 and the
terminator), after a header alone (counter 3, `n = 0`: the terminator only) and at
counter 0 (`n = 1`). -/
theorem eot_padding_witness :
    nDMR 5 ≠ 0
    ∧ (dmrWritten (dmrOutput { idleSession with dmr_cnt := 5 } TAG.TAG_EOT).2).map
        (fun d => (d.dataType, d.emb, d.silence, d.seqNo))
      = [(DataType.DT_VOICE, some 2, true, 5), (DataType.DT_VOICE, some 3, true, 6),
         (DataType.DT_VOICE, some 4, true, 7), (DataType.DT_VOICE, some 5, true, 8),
         (DataType.DT_TERMINATOR_WITH_LC, none, false, 9)]
    ∧ nDMR 3 = 0
    ∧ (dmrOutput { idleSession with dmr_cnt := 3 } TAG.TAG_EOT).2
      = [Out.dmrWrite
          { slotNo := 2, srcId := 2140001, dstId := 9, flco := FLCO.FLCO_GROUP, n := 0,
            seqNo := 3, dataType := DataType.DT_TERMINATOR_WITH_LC, emb := none,
            silence := false }]
    ∧ nDMR 0 = 0 + 1 :=
  ⟨by decide, by
    rw [((eot_padding { idleSession with dmr_cnt := 5 }).1 (by decide)).1]
    decide,
    by decide,
    (eot_padding { idleSession with dmr_cnt := 3 }).2.1 (by decide),
    (eot_padding { idleSession with dmr_cnt := 0 }).2.2.2.2 (by decide)⟩

theorem dmrWritten_append (a b : List Out) :
    dmrWritten (a ++ b) = dmrWritten a ++ dmrWritten b := by
  induction a with
  | nil => rfl
  | cons x a ih => cases x <;> simp [dmrWritten, ih]

theorem dmrWritten_map (f : Nat → CDMRData) (l : List Nat) :
    dmrWritten (l.map (fun j => Out.dmrWrite (f j))) = l.map f := by
  induction l with
  | nil => rfl
  | cons x l ih => simp [dmrWritten, ih]

/-- Claim C14 as stated fails: at a tick on which the pipeline returns a header the
driver writes three frames, and at an end of transmission handed over with counter 4
it writes five silence frames and the terminator. -/
theorem header_tick_writes_three :
    (dmrWritten (dmrOutput idleSession TAG.TAG_HEADER).2).length = 3
    ∧ (dmrWritten (dmrOutput { idleSession with dmr_cnt := 4 } TAG.TAG_EOT).2).length = 6 := by
  refine ⟨by decide, by decide⟩

/-- Claim C14, amended. At a DMR output tick the driver writes exactly one frame for a
data unit; for a header it writes the voice header three times, with the sequence
numbers 0, 1, 2; for an end of transmission, with `n` the value of the unsigned
expression `(dmr_cnt - 3U) % 6U` (`(dmr_cnt - 3) mod 6` for `dmr_cnt ≥ 3`,
`dmr_cnt + 1` for `dmr_cnt < 3`), it writes the terminator alone when `n = 0` and
the `6 - n` silence voice frames with the fragments `n, ..., 5` followed by the
terminator otherwise, `7 - n` frames in all; and it writes nothing when no unit is
ready. -/
theorem dmr_frames_per_tick (s : Gateway) :
    (dmrWritten (dmrOutput s TAG.TAG_DATA).2).length = 1
    ∧ (dmrWritten (dmrOutput s TAG.TAG_HEADER).2).map (fun d => (d.dataType, d.seqNo))
        = [(DataType.DT_VOICE_LC_HEADER, 0), (DataType.DT_VOICE_LC_HEADER, 1),
           (DataType.DT_VOICE_LC_HEADER, 2)]
    ∧ (nDMR s.dmr_cnt = 0 →
        dmrWritten (dmrOutput s TAG.TAG_EOT).2
          = [{ slotNo := 2, srcId := s.m_srcid, dstId := s.m_dstid, flco := s.dmrflco,
               n := 0, seqNo := s.dmr_cnt, dataType := DataType.DT_TERMINATOR_WITH_LC,
               emb := none, silence := false }])
    ∧ (nDMR s.dmr_cnt ≠ 0 →
        dmrWritten (dmrOutput s TAG.TAG_EOT).2
          = (List.range (6 - nDMR s.dmr_cnt)).map (fun j =>
              ({ slotNo := 2, srcId := s.m_srcid, dstId := s.m_dstid, flco := s.dmrflco,
                 n := nDMR s.dmr_cnt + j, seqNo := incr8^[j] s.dmr_cnt,
                 dataType := DataType.DT_VOICE, emb := some (nDMR s.dmr_cnt + j),
                 silence := true } : CDMRData))
            ++ [{ slotNo := 2, srcId := s.m_srcid, dstId := s.m_dstid, flco := s.dmrflco,
                  n := 6, seqNo := incr8^[6 - nDMR s.dmr_cnt] s.dmr_cnt,
                  dataType := DataType.DT_TERMINATOR_WITH_LC, emb := none,
                  silence := false }])
    ∧ (dmrWritten (dmrOutput s TAG.TAG_EOT).2).length
        = (if nDMR s.dmr_cnt = 0 then 1 else 7 - nDMR s.dmr_cnt)
    ∧ (3 ≤ s.dmr_cnt → nDMR s.dmr_cnt = (s.dmr_cnt - 3) % 6)
    ∧ (s.dmr_cnt < 3 → nDMR s.dmr_cnt = s.dmr_cnt + 1)
    ∧ (dmrOutput s TAG.TAG_NODATA).2 = [] := by
  have hlt := nDMR_lt s.dmr_cnt
  have h0 : nDMR s.dmr_cnt = 0 →
      dmrWritten (dmrOutput s TAG.TAG_EOT).2
        = [{ slotNo := 2, srcId := s.m_srcid, dstId := s.m_dstid, flco := s.dmrflco,
             n := 0, seqNo := s.dmr_cnt, dataType := DataType.DT_TERMINATOR_WITH_LC,
             emb := none, silence := false }] := by
    intro hn
    rw [dmrOutput_eot_plain s hn]
    rfl
  have h1 : nDMR s.dmr_cnt ≠ 0 →
      dmrWritten (dmrOutput s TAG.TAG_EOT).2
        = (List.range (6 - nDMR s.dmr_cnt)).map (fun j =>
            ({ slotNo := 2, srcId := s.m_srcid, dstId := s.m_dstid, flco := s.dmrflco,
               n := nDMR s.dmr_cnt + j, seqNo := incr8^[j] s.dmr_cnt,
               dataType := DataType.DT_VOICE, emb := some (nDMR s.dmr_cnt + j),
               silence := true } : CDMRData))
          ++ [{ slotNo := 2, srcId := s.m_srcid, dstId := s.m_dstid, flco := s.dmrflco,
                n := 6, seqNo := incr8^[6 - nDMR s.dmr_cnt] s.dmr_cnt,
                dataType := DataType.DT_TERMINATOR_WITH_LC, emb := none,
                silence := false }] := by
    intro hn
    rw [dmrOutput_eot_fill s hn, dmrWritten_append, dmrWritten_map]
    rfl
  refine ⟨?_, ?_, h0, h1, ?_, ?_, ?_, ?_⟩
  · unfold dmrOutput
    rfl
  · unfold dmrOutput
    rfl
  · by_cases hn : nDMR s.dmr_cnt = 0
    · rw [if_pos hn, h0 hn]
      rfl
    · rw [if_neg hn, h1 hn]
      simp only [List.length_append, List.length_map, List.length_range,
        List.length_singleton]
      omega
  · intro hc
    unfold nDMR usub32
    rw [if_pos hc]
  · intro hc
    unfold nDMR usub32
    split_ifs <;> omega
  · unfold dmrOutput
    rfl

/-- Witness of the amended C14: an end of transmission at counter 0, where `n = 1` and
six frames are written, and at counter 3, where `n = 0` and the terminator is written
alone. -/
theorem dmr_frames_per_tick_witness :
    nDMR 0 ≠ 0
    ∧ (dmrWritten (dmrOutput { idleSession with dmr_cnt := 0 } TAG.TAG_EOT).2).map
        (fun d => (d.dataType, d.emb, d.silence, d.seqNo))
      = [(DataType.DT_VOICE, some 1, true, 0), (DataType.DT_VOICE, some 2, true, 1),
         (DataType.DT_VOICE, some 3, true, 2), (DataType.DT_VOICE, some 4, true, 3),
         (DataType.DT_VOICE, some 5, true, 4),
         (DataType.DT_TERMINATOR_WITH_LC, none, false, 5)]
    ∧ nDMR 3 = 0
    ∧ dmrWritten (dmrOutput { idleSession with dmr_cnt := 3 } TAG.TAG_EOT).2
      = [{ slotNo := 2, srcId := 2140001, dstId := 9, flco := FLCO.FLCO_GROUP, n := 0,
           seqNo := 3, dataType := DataType.DT_TERMINATOR_WITH_LC, emb := none,
           silence := false }] :=
  ⟨by decide, by
    rw [(dmr_frames_per_tick { idleSession with dmr_cnt := 0 }).2.2.2.1 (by decide)]
    decide,
    by decide,
    (dmr_frames_per_tick { idleSession with dmr_cnt := 3 }).2.2.1 (by decide)⟩

/-! ### The network watchdog -/

/-- Support for C15: a record flagged missing never gives the pipeline an end of
transmission; when the watchdog has run out the link is reset, the watchdog stopped
and the frame counter cleared. -/
theorem dmrFrame_missing (ms : Nat) (s : Gateway) (d : DMRIn) (hm : d.missing = true) :
    Out.putDMREOT ∉ (dmrFrame ms s d).2
    ∧ (d.expired = true →
        (dmrFrame ms s d).1.m_dmrFrames = 0
        ∧ ∃ out, (dmrFrame ms s d).2 = out ++ [Out.watchdogClock ms, Out.dmrReset, Out.watchdogStop]) := by
  unfold dmrFrame
  simp only [hm, not_true_eq_false, if_false]
  by_cases he : d.expired = true
  · simp only [he, if_true, forall_true_left]
    refine ⟨?_, trivial, _, rfl⟩
    split_ifs <;> simp
  · simp only [he, if_false]
    refine ⟨?_, fun h => absurd h (by simp)⟩
    split_ifs <;> simp

/-- Claim C15, the code at the failing input. In the middle of a transmission a voice
record flagged missing is handled when the watchdog has run out. The driver resets the
DMR link, stops the watchdog and clears `m_dmrFrames`, but the pipeline is not given
an end of transmission, here and over the whole iteration of the loop, while a
terminator read from the network does all four. -/
theorem watchdog_expiry_without_eot :
    dmrFrame 5 openTransmission lostFrame
      = ({ openTransmission with m_dmrFrames := 0 },
          [Out.putDMR, Out.watchdogClock 5, Out.dmrReset, Out.watchdogStop])
    ∧ Out.putDMREOT ∉ (dmrFrame 5 openTransmission lostFrame).2
    ∧ (runLoop noID openTransmission [{ quiet 1000 with dmrIn := [lostFrame] }]).map
        (fun r => r.2) = some [Out.putDMR, Out.watchdogClock 5, Out.dmrReset, Out.watchdogStop]
    ∧ (dmrFrame 5 openTransmission (dmrTerminator 2140002 9)).2
      = [Out.watchdogStart, Out.putDMREOT, Out.dmrReset, Out.watchdogStop] := by
  refine ⟨by decide, by decide, by decide, by decide⟩

/-! ### The source ID of a callsign -/

/-- Claim C16 as stated fails: the table holds the callsign `EA7EE` with the ID 2140001,
which is also the default source ID. The lookup does not return 0 and the result of
`findYSFID` is the default source ID all the same, so the result is not the default
exactly when the lookup returns 0. -/
theorem lookup_returns_default :
    cstrim callsign = some "EA7EE".toList
    ∧ oneID "EA7EE".toList = 2140001
    ∧ findYSFID oneID 2140001 callsign = some 2140001
    ∧ ¬ (findYSFID oneID 2140001 callsign = some 2140001 ↔ oneID "EA7EE".toList = 0) := by
  refine ⟨by decide, by decide, by decide, by decide⟩

/-- Claim C16, amended. For every callsign for which `findYSFID` gets a lookup key, the
result is the default source ID when `m_lookup->findID` returns 0 for the key and the
ID it returns otherwise; it is the default source ID exactly when the lookup returns
0 or the default source ID itself, and it is not 0 when the default source ID is not
0. -/
theorem findYSFID_lookup (findID : List Char → Nat) (m_defsrcid : Nat) (cs key : List Char)
    (hkey : cstrim cs = some key) :
    findYSFID findID m_defsrcid cs
      = some (if findID key = 0 then m_defsrcid else findID key)
    ∧ (findID key = 0 → findYSFID findID m_defsrcid cs = some m_defsrcid)
    ∧ (findID key ≠ 0 → findYSFID findID m_defsrcid cs = some (findID key))
    ∧ (m_defsrcid ≠ 0 → findYSFID findID m_defsrcid cs ≠ some 0)
    ∧ (findYSFID findID m_defsrcid cs = some m_defsrcid
        ↔ findID key = 0 ∨ findID key = m_defsrcid) := by
  have e := findYSFID_eq findID m_defsrcid cs
  rw [hkey, Option.map_some'] at e
  refine ⟨e, ?_, ?_, ?_, ?_⟩
  · intro h0
    rw [e, if_pos h0]
  · intro h0
    rw [e, if_neg h0]
  · intro hd
    rw [e]
    intro h
    rw [Option.some.injEq] at h
    split_ifs at h with h0
    · exact hd h
    · exact h0 h
  · rw [e, Option.some.injEq]
    constructor
    · intro h
      split_ifs at h with h0
      · exact Or.inl h0
      · exact Or.inr h
    · rintro (h0 | h0)
      · rw [if_pos h0]
      · split_ifs with h1
        · rfl
        · exact h0

/-- Witness of the amended C16: the callsign field `EA7EE` followed by blanks has the
key `EA7EE`, which the table holds with ID 2140001, the callsign `EA5XYZ` is not in
the table, and the default source ID is 2140009. -/
theorem findYSFID_lookup_witness :
    cstrim callsign = some "EA7EE".toList
    ∧ oneID "EA7EE".toList ≠ 0
    ∧ findYSFID oneID 2140009 callsign = some (oneID "EA7EE".toList)
    ∧ oneID "EA7EE".toList = 2140001
    ∧ cstrim "EA5XYZ    ".toList = some "EA5XYZ".toList
    ∧ oneID "EA5XYZ".toList = 0
    ∧ findYSFID oneID 2140009 "EA5XYZ    ".toList = some 2140009 :=
  ⟨by decide, by decide,
    (findYSFID_lookup oneID 2140009 callsign "EA7EE".toList (by decide)).2.2.1 (by decide),
    by decide, by decide, by decide,
    (findYSFID_lookup oneID 2140009 "EA5XYZ    ".toList "EA5XYZ".toList (by decide)).2.1
      (by decide)⟩

/-- Claim C18, the code at the failing input. For the empty string, the value of
`m_ysfSrc` at startup, and for a string of six blanks, the value stored in `m_ysfSrc`
from a frame whose source field is blank, `find_first_not_of` returns `npos`, the start
index passed to `substr` is past the end of the string, `substr` throws and no lookup
key is produced. -/
theorem findYSFID_blank_throws :
    (startup false false 9 2140001 9).m_ysfSrc = []
    ∧ find_first_not_of [] ' ' = -1
    ∧ toSize (-1) > ([] : List Char).length
    ∧ cstrim [] = none
    ∧ findYSFID oneID 2140001 [] = none
    ∧ ysfSrcOf blankCallsign = "      ".toList
    ∧ find_first_not_of "      ".toList ' ' = -1
    ∧ toSize (-1) > "      ".toList.length
    ∧ cstrim "      ".toList = none
    ∧ findYSFID oneID 2140001 "      ".toList = none := by
  refine ⟨by decide, by decide, by decide, by decide, by decide, by decide, by decide,
    by decide, by decide, by decide⟩

/-! ### The default source ID -/

/-- Claim C19. For a configured DMR ID `h` of at most nine digits, the default source ID
set by `createDMRNetwork` is `h` when `h ≤ 9,999,999`, `h / 10` when `h` has eight
digits and `h / 100` when it has nine; it is at most 9,999,999, and it has seven
digits whenever `h` has at least seven. -/
theorem defsrcid_spec (h : Nat) (hh : h ≤ 999999999) :
    (h ≤ 9999999 → defsrcid h = h)
    ∧ (10000000 ≤ h → h ≤ 99999999 → defsrcid h = h / 10)
    ∧ (100000000 ≤ h → defsrcid h = h / 100)
    ∧ defsrcid h ≤ 9999999
    ∧ (1000000 ≤ h → 1000000 ≤ defsrcid h) := by
  unfold defsrcid
  refine ⟨?_, ?_, ?_, ?_, ?_⟩
  · intro h1
    rw [if_neg (by omega), if_neg (by omega)]
  · intro h1 h2
    rw [if_neg (by omega), if_pos (by omega)]
  · intro h1
    rw [if_pos (by omega)]
  · split_ifs <;> omega
  · intro h1
    split_ifs <;> omega

/-- Witness of C19: the nine-digit ID 214000101 gives the default source ID 2140001. -/
theorem defsrcid_spec_witness :
    214000101 ≤ 999999999 ∧ 100000000 ≤ 214000101
    ∧ defsrcid 214000101 = 214000101 / 100 ∧ 214000101 / 100 = 2140001 :=
  ⟨by decide, by decide, (defsrcid_spec 214000101 (by decide)).2.2.1 (by decide), by decide⟩

end YSF2DMR

namespace APRSReader

/-! ### The single outstanding lookup -/

/-- The behaviour of `findCall` when no lookup is pending: a callsign the tables hold is
answered from them, a stale entry or a missing callsign starts a lookup, and a
missing callsign leaves the caller's variables as they were. -/
theorem findCall_idle :
    findCall { pendingReader with m_new_callsign := false } "EA7EE".toList 0 0 1540000500
      = { reader := { pendingReader with m_new_callsign := false }, latitude := 37389,
          longitude := -5984, result := some true }
    ∧ findCall { pendingReader with m_new_callsign := false } "EA7EE".toList 0 0 1540000601
      = { reader := { pendingReader with m_cs := "EA7EE".toList }, latitude := 37389,
          longitude := -5984, result := some true }
    ∧ findCall { pendingReader with m_new_callsign := false } "EA1AAA".toList 7 8 1540000500
      = { reader := { pendingReader with m_cs := "EA1AAA".toList }, latitude := 7,
          longitude := 8, result := some false } := by
  refine ⟨by decide, by decide, by decide⟩

/-- Claim C17. When a lookup is pending on entry, `findCall` returns `false` and leaves
the reader (the pending callsign, the pending flag and the three tables) and the
caller's latitude and longitude as they were, for every callsign. In every state,
`findCall` changes the pending callsign only if no lookup was pending on entry. -/
theorem findCall_pending (r : CAPRSReader) (cs : List Char) (latitude longitude tv_sec : Int) :
    (r.m_new_callsign = true →
      findCall r cs latitude longitude tv_sec
        = { reader := r, latitude := latitude, longitude := longitude, result := some false })
    ∧ ((findCall r cs latitude longitude tv_sec).reader.m_cs ≠ r.m_cs →
        r.m_new_callsign = false) := by
  have h1 : r.m_new_callsign = true →
      findCall r cs latitude longitude tv_sec
        = { reader := r, latitude := latitude, longitude := longitude,
            result := some false } := by
    intro h
    unfold findCall
    rw [if_pos h]
  refine ⟨h1, ?_⟩
  intro hne
  cases h : r.m_new_callsign
  · rfl
  · rw [h1 h] at hne
    exact absurd rfl hne

/-- Witness of C17: while the lookup of `EA5XYZ` is pending, a request for `EA7EE`,
whose position the tables hold, returns `false` and changes nothing. -/
theorem findCall_pending_witness :
    pendingReader.m_new_callsign = true
    ∧ findCall pendingReader "EA7EE".toList 0 0 1540001000
        = { reader := pendingReader, latitude := 0, longitude := 0, result := some false } :=
  ⟨by decide, (findCall_pending pendingReader "EA7EE".toList 0 0 1540001000).1 (by decide)⟩

end APRSReader
